import Mathlib

/-
  Verification development for the execution-span instrumentation and
  validation engine of the ecosystem-core repository.

  Shallow embedding notes (documenting each modelling choice):
  * Span identifiers (`crypto.randomUUID` in the source) are modelled as
    natural numbers drawn from a per-context counter: the UUID generator is
    collision-resistant, so within one execution every generated id is fresh;
    the counter captures exactly that freshness.  Where the source embeds a
    span id into a string (evidence values, validator messages) the model uses
    `Nat.repr`.
  * Timestamps (`new Date().toISOString()`) are modelled by the uninterpreted
    constant `tNow`; no verified property inspects timestamp contents.
  * JavaScript string truthiness plus `trim() === ''` (used by the validator
    on evidence values and artifact ids) is modelled by `isBlank`: a string is
    rejected exactly when every character is whitespace, which is the
    semantics of `!v || v.trim() === ''`.
  * Thrown errors from caller-supplied async functions are modelled by
    `Except String`: `Except.error m` stands for a function that throws an
    error whose message is `m`.  The wrappers in the source catch every such
    error, so the model is a total function.
  * The opaque `metadata` bag and artifact `content` are never inspected by
    the modelled code and are omitted from the records.
  * The `ValidationFailure.span_id` field holds the literal string 'graph' for
    the `core_span_required` rule and a span id otherwise; it is modelled as
    `Option Nat` with `none` standing for 'graph'.
-/

namespace EcosystemCore

/-- Span type discriminator (`SpanType` in `execution/types.ts`). -/
inductive SpanType
  | core
  | repo
  | agent
deriving DecidableEq

/-- Execution status of a span (`SpanStatus` in `execution/types.ts`). -/
inductive SpanStatus
  | running
  | completed
  | failed
deriving DecidableEq

/-- Evidence kind (`'id' | 'hash' | 'uri'` in `execution/types.ts`). -/
inductive EvidenceType
  | id
  | hash
  | uri
deriving DecidableEq

/-- Artifact attached to a span (`SpanArtifact`); the opaque `content` field
is omitted as it is never inspected by the modelled code. -/
structure SpanArtifact where
  id : String
  type : String
  name : String
  produced_at : String
deriving DecidableEq

/-- Machine-verifiable evidence reference (`SpanEvidence`). -/
structure SpanEvidence where
  type : EvidenceType
  value : String
  description : String
deriving DecidableEq

/-- A single execution span (`ExecutionSpan` plus the `repo_name`,
`agent_name` and `operation` fields of its `RepoSpan`/`AgentSpan` variants,
modelled as options; the opaque `metadata` bag is omitted). -/
structure ExecutionSpan where
  span_id : Nat
  parent_span_id : Option Nat
  type : SpanType
  name : String
  repo_name : Option String
  agent_name : Option String
  operation : Option String
  status : SpanStatus
  start_time : String
  end_time : Option String
  artifacts : List SpanArtifact
  evidence : List SpanEvidence
  failure_reasons : List String
deriving DecidableEq

/-- One structural invariant violation (`ValidationFailure`);
`span_id = none` stands for the literal 'graph' placeholder. -/
structure ValidationFailure where
  span_id : Option Nat
  rule : String
  message : String
deriving DecidableEq

/-- The complete execution graph (`ExecutionGraph`). -/
structure ExecutionGraph where
  spans : List ExecutionSpan
deriving DecidableEq

/-- Result of a Core execution (`CoreExecutionResult`); `result : unknown`
is modelled as `Option α`, `none` standing for null/absent. -/
structure CoreExecutionResult (α : Type) where
  success : Bool
  core_span_id : Nat
  execution_graph : ExecutionGraph
  validation_failures : List ValidationFailure
  failure_reasons : List String
  result : Option α

/-- Fixed timestamp standing for `new Date().toISOString()`. -/
def tNow : String := "1970-01-01T00:00:00.000Z"

/-- `createCoreSpan` from `execution/spans.ts`; `sid` is the id handed out by
the (modelled) generator. -/
def createCoreSpan (name : String) (parentSpanId : Option Nat) (sid : Nat) :
    ExecutionSpan :=
  { span_id := sid
    parent_span_id := parentSpanId
    type := SpanType.core
    name := name
    repo_name := none
    agent_name := none
    operation := none
    status := SpanStatus.running
    start_time := tNow
    end_time := none
    artifacts := []
    evidence := []
    failure_reasons := [] }

/-- `createRepoSpan` from `execution/spans.ts`. -/
def createRepoSpan (repoName : String) (parentSpanId : Nat) (sid : Nat) :
    ExecutionSpan :=
  { span_id := sid
    parent_span_id := some parentSpanId
    type := SpanType.repo
    name := "repo:" ++ repoName
    repo_name := some repoName
    agent_name := none
    operation := none
    status := SpanStatus.running
    start_time := tNow
    end_time := none
    artifacts := []
    evidence := []
    failure_reasons := [] }

/-- `createAgentSpan` from `execution/spans.ts`. -/
def createAgentSpan (agentName operation : String) (parentSpanId : Nat)
    (sid : Nat) : ExecutionSpan :=
  { span_id := sid
    parent_span_id := some parentSpanId
    type := SpanType.agent
    name := "agent:" ++ agentName ++ ":" ++ operation
    repo_name := none
    agent_name := some agentName
    operation := some operation
    status := SpanStatus.running
    start_time := tNow
    end_time := none
    artifacts := []
    evidence := []
    failure_reasons := [] }

/-- `completeSpan` from `execution/spans.ts`: immutable update marking the
span completed. -/
def completeSpan (span : ExecutionSpan) : ExecutionSpan :=
  { span with status := SpanStatus.completed, end_time := some tNow }

/-- `failSpan` from `execution/spans.ts`: marks the span failed and appends
`reasons` to its `failure_reasons`. -/
def failSpan (span : ExecutionSpan) (reasons : List String) : ExecutionSpan :=
  { span with
    status := SpanStatus.failed
    end_time := some tNow
    failure_reasons := span.failure_reasons ++ reasons }

/-- `attachArtifact` from `execution/spans.ts` (the `produced_at` default is
already filled in by the caller in the model). -/
def attachArtifact (span : ExecutionSpan) (artifact : SpanArtifact) :
    ExecutionSpan :=
  { span with artifacts := span.artifacts ++ [artifact] }

/-- `attachEvidence` from `execution/spans.ts`. -/
def attachEvidence (span : ExecutionSpan) (evidence : SpanEvidence) :
    ExecutionSpan :=
  { span with evidence := span.evidence ++ [evidence] }

/-- Models the JavaScript test `!v || v.trim() === ''`: true exactly when
every character of `v` is whitespace (an empty string vacuously so). -/
def isBlank (v : String) : Bool :=
  v.data.all Char.isWhitespace

/-- Membership test backing the validator's `spanMap.has`. -/
def hasSpanId (spans : List ExecutionSpan) (sid : Nat) : Bool :=
  spans.any (fun s => s.span_id = sid)

/-- The validator's `childrenByParent.get(pid)`: all spans whose
`parent_span_id` is `pid`, in graph order. -/
def childrenOf (spans : List ExecutionSpan) (pid : Nat) :
    List ExecutionSpan :=
  spans.filter (fun s => s.parent_span_id = some pid)

/-- The core/repo/agent hierarchy scan of `validateExecutionGraph`
(`core_must_have_repo_children` and `repo_must_have_agent_children`). -/
def hierarchyFailures (spans : List ExecutionSpan) : List ValidationFailure :=
  (spans.filter (fun s => s.type = SpanType.core)).flatMap (fun c =>
    (if ((childrenOf spans c.span_id).filter
        (fun s => s.type = SpanType.repo)).isEmpty then
      [{ span_id := some c.span_id
         rule := "core_must_have_repo_children"
         message := "Core span \"" ++ c.name ++
           "\" has no repo-level child spans" }]
     else []) ++
    ((childrenOf spans c.span_id).filter
        (fun s => s.type = SpanType.repo)).flatMap (fun r =>
      if ((childrenOf spans r.span_id).filter
          (fun s => s.type = SpanType.agent)).isEmpty then
        [{ span_id := some r.span_id
           rule := "repo_must_have_agent_children"
           message := "Repo span \"" ++ r.name ++
             "\" has no agent-level child spans" }]
      else []))

/-- The `valid_parent_reference` scan: a non-core span with a present but
unresolvable `parent_span_id` is flagged; a null parent is skipped by the
source's truthiness test. -/
def parentRefFailures (spans : List ExecutionSpan) : List ValidationFailure :=
  spans.flatMap (fun s =>
    match s.parent_span_id with
    | some p =>
      if ¬ hasSpanId spans p ∧ s.type ≠ SpanType.core then
        [{ span_id := some s.span_id
           rule := "valid_parent_reference"
           message := "Span \"" ++ s.name ++
             "\" references non-existent parent_span_id \"" ++
             Nat.repr p ++ "\"" }]
      else []
    | none => [])

/-- The `no_self_reference` scan. -/
def selfRefFailures (spans : List ExecutionSpan) : List ValidationFailure :=
  spans.flatMap (fun s =>
    if s.parent_span_id = some s.span_id then
      [{ span_id := some s.span_id
         rule := "no_self_reference"
         message := "Span \"" ++ s.name ++ "\" references itself as parent" }]
    else [])

/-- The `evidence_must_be_verifiable` scan. -/
def evidenceFailures (spans : List ExecutionSpan) : List ValidationFailure :=
  spans.flatMap (fun s =>
    s.evidence.flatMap (fun e =>
      if isBlank e.value then
        [{ span_id := some s.span_id
           rule := "evidence_must_be_verifiable"
           message := "Span \"" ++ s.name ++ "\" has evidence with empty value" }]
      else []))

/-- The `artifact_must_have_id` scan. -/
def artifactFailures (spans : List ExecutionSpan) : List ValidationFailure :=
  spans.flatMap (fun s =>
    s.artifacts.flatMap (fun a =>
      if isBlank a.id then
        [{ span_id := some s.span_id
           rule := "artifact_must_have_id"
           message := "Span \"" ++ s.name ++
             "\" has artifact without stable identifier" }]
      else []))

/-- `validateExecutionGraph` from `execution/validator.ts`: if no core span
exists, report `core_span_required` and stop; otherwise run every scan and
concatenate the failures in the source's push order. -/
def validateExecutionGraph (graph : ExecutionGraph) : List ValidationFailure :=
  if (graph.spans.filter (fun s => s.type = SpanType.core)).isEmpty then
    [{ span_id := none
       rule := "core_span_required"
       message := "Execution graph must contain at least one core-level span" }]
  else
    hierarchyFailures graph.spans ++
    parentRefFailures graph.spans ++
    selfRefFailures graph.spans ++
    evidenceFailures graph.spans ++
    artifactFailures graph.spans

/-- `isValidExecutionGraph` from `execution/validator.ts`. -/
def isValidExecutionGraph (graph : ExecutionGraph) : Bool :=
  (validateExecutionGraph graph).isEmpty

/-- `ExecutionContext` state (`execution/context.ts`): the core span created
at construction, the ordered span collection and the id-generator counter. -/
structure ExecutionContext where
  coreSpan : ExecutionSpan
  spans : List ExecutionSpan
  nextId : Nat
deriving DecidableEq

/-- The `ExecutionContext` constructor: creates the core span and records it
as the first entry of the collection. -/
def ExecutionContext.new (coreName : String) (parentSpanId : Option Nat) :
    ExecutionContext :=
  { coreSpan := createCoreSpan coreName parentSpanId 0
    spans := [createCoreSpan coreName parentSpanId 0]
    nextId := 1 }

/-- The replace-by-id helper `updateSpan` acting on the span collection: the
first span whose id matches is replaced, everything else untouched; with no
match the collection is returned unchanged. -/
def updateSpanList (spanId : Nat) (updater : ExecutionSpan → ExecutionSpan) :
    List ExecutionSpan → List ExecutionSpan
  | [] => []
  | s :: rest =>
    if s.span_id = spanId then updater s :: rest
    else s :: updateSpanList spanId updater rest

/-- `ExecutionContext.updateSpan`. -/
def ExecutionContext.updateSpan (ctx : ExecutionContext) (spanId : Nat)
    (updater : ExecutionSpan → ExecutionSpan) : ExecutionContext :=
  { ctx with spans := updateSpanList spanId updater ctx.spans }

/-- `ExecutionContext.startRepoSpan`: mints a repo span parented to the core
span and appends it. -/
def ExecutionContext.startRepoSpan (ctx : ExecutionContext)
    (repoName : String) : ExecutionSpan × ExecutionContext :=
  let span := createRepoSpan repoName ctx.coreSpan.span_id ctx.nextId
  (span, { ctx with spans := ctx.spans ++ [span], nextId := ctx.nextId + 1 })

/-- `ExecutionContext.startAgentSpan`. -/
def ExecutionContext.startAgentSpan (ctx : ExecutionContext)
    (parentRepoSpanId : Nat) (agentName operation : String) :
    ExecutionSpan × ExecutionContext :=
  let span := createAgentSpan agentName operation parentRepoSpanId ctx.nextId
  (span, { ctx with spans := ctx.spans ++ [span], nextId := ctx.nextId + 1 })

/-- `ExecutionContext.completeRepoSpan`. -/
def ExecutionContext.completeRepoSpan (ctx : ExecutionContext)
    (spanId : Nat) : ExecutionContext :=
  ctx.updateSpan spanId completeSpan

/-- `ExecutionContext.failRepoSpan`. -/
def ExecutionContext.failRepoSpan (ctx : ExecutionContext) (spanId : Nat)
    (reasons : List String) : ExecutionContext :=
  ctx.updateSpan spanId (fun s => failSpan s reasons)

/-- `ExecutionContext.completeAgentSpan`. -/
def ExecutionContext.completeAgentSpan (ctx : ExecutionContext)
    (spanId : Nat) : ExecutionContext :=
  ctx.updateSpan spanId completeSpan

/-- `ExecutionContext.failAgentSpan`. -/
def ExecutionContext.failAgentSpan (ctx : ExecutionContext) (spanId : Nat)
    (reasons : List String) : ExecutionContext :=
  ctx.updateSpan spanId (fun s => failSpan s reasons)

/-- `ExecutionContext.ingestRepoSpans`: appends externally produced spans
verbatim. -/
def ExecutionContext.ingestRepoSpans (ctx : ExecutionContext)
    (spans : List ExecutionSpan) : ExecutionContext :=
  { ctx with spans := ctx.spans ++ spans }

/-- `ExecutionContext.attachArtifactToSpan`. -/
def ExecutionContext.attachArtifactToSpan (ctx : ExecutionContext)
    (spanId : Nat) (artifact : SpanArtifact) : ExecutionContext :=
  ctx.updateSpan spanId (fun s => attachArtifact s artifact)

/-- `ExecutionContext.attachEvidenceToSpan`. -/
def ExecutionContext.attachEvidenceToSpan (ctx : ExecutionContext)
    (spanId : Nat) (evidence : SpanEvidence) : ExecutionContext :=
  ctx.updateSpan spanId (fun s => attachEvidence s evidence)

/-- `ExecutionContext.finalize` from `execution/context.ts`: validate the
current collection, collect core-level failure reasons (formatted validation
failures plus the failed-children summary, where a failed child is any failed
span whose id differs from the core span's id), transition the core span and
assemble the result. -/
def ExecutionContext.finalize {α : Type} (ctx : ExecutionContext)
    (operationResult : Option α) : CoreExecutionResult α :=
  let validationFailures := validateExecutionGraph { spans := ctx.spans }
  let isValid := validationFailures.isEmpty
  let reasonsFromValidation : List String :=
    if isValid then []
    else validationFailures.map (fun f => "[" ++ f.rule ++ "] " ++ f.message)
  let failedChildren := ctx.spans.filter (fun s =>
    s.span_id ≠ ctx.coreSpan.span_id ∧ s.status = SpanStatus.failed)
  let coreFailureReasons := reasonsFromValidation ++
    (if 0 < failedChildren.length then
      [Nat.repr failedChildren.length ++ " child span(s) failed"]
     else [])
  let success := coreFailureReasons.isEmpty
  let finalSpans :=
    if success then
      updateSpanList ctx.coreSpan.span_id completeSpan ctx.spans
    else
      updateSpanList ctx.coreSpan.span_id
        (fun s => failSpan s coreFailureReasons) ctx.spans
  { success := success
    core_span_id := ctx.coreSpan.span_id
    execution_graph := { spans := finalSpans }
    validation_failures := validationFailures
    failure_reasons := coreFailureReasons
    result := operationResult }

/-- `executeWithSpans` from `execution/spans.ts`: single-operation wrapper;
`fn` is the awaited outcome of the caller-supplied async function. -/
def executeWithSpans {α : Type} (coreName : String)
    (parentSpanId : Option Nat) (repoName agentName operation : String)
    (fn : Except String α) : CoreExecutionResult α :=
  let ctx := ExecutionContext.new coreName parentSpanId
  let repoStart := ctx.startRepoSpan repoName
  let repoSpan := repoStart.1
  let ctx1 := repoStart.2
  let agentStart := ctx1.startAgentSpan repoSpan.span_id agentName operation
  let agentSpan := agentStart.1
  let ctx2 := agentStart.2
  match fn with
  | Except.ok v =>
    let ctx3 := ctx2.attachEvidenceToSpan agentSpan.span_id
      { type := EvidenceType.id
        value := repoName ++ ":" ++ operation ++ ":" ++
          Nat.repr agentSpan.span_id
        description := "Completed " ++ operation ++ " via " ++ agentName }
    let ctx4 := ctx3.completeAgentSpan agentSpan.span_id
    let ctx5 := ctx4.completeRepoSpan repoSpan.span_id
    ctx5.finalize (some v)
  | Except.error msg =>
    let ctx3 := ctx2.failAgentSpan agentSpan.span_id [msg]
    let ctx4 := ctx3.failRepoSpan repoSpan.span_id
      ["Agent \"" ++ agentName ++ "\" failed: " ++ msg]
    ctx4.finalize none

/-- One entry of the multi-repo wrapper's `repos` array; `fn` is the awaited
outcome of the entry's async function. -/
structure RepoEntry (β : Type) where
  repoName : String
  agentName : String
  operation : String
  fn : Except String β

/-- One iteration of the `for` loop of `executeMultiRepoWithSpans`, acting on
the accumulated (context, results, hasFailure) state. -/
def multiRepoStep {β : Type}
    (acc : ExecutionContext × List (Option β) × Bool) (repo : RepoEntry β) :
    ExecutionContext × List (Option β) × Bool :=
  let ctx := acc.1
  let results := acc.2.1
  let hasFailure := acc.2.2
  let repoStart := ctx.startRepoSpan repo.repoName
  let repoSpan := repoStart.1
  let ctx1 := repoStart.2
  let agentStart :=
    ctx1.startAgentSpan repoSpan.span_id repo.agentName repo.operation
  let agentSpan := agentStart.1
  let ctx2 := agentStart.2
  match repo.fn with
  | Except.ok v =>
    let ctx3 := ctx2.attachEvidenceToSpan agentSpan.span_id
      { type := EvidenceType.id
        value := repo.repoName ++ ":" ++ repo.operation ++ ":" ++
          Nat.repr agentSpan.span_id
        description :=
          "Completed " ++ repo.operation ++ " via " ++ repo.agentName }
    let ctx4 := ctx3.completeAgentSpan agentSpan.span_id
    let ctx5 := ctx4.completeRepoSpan repoSpan.span_id
    (ctx5, results ++ [some v], hasFailure)
  | Except.error msg =>
    let ctx3 := ctx2.failAgentSpan agentSpan.span_id [msg]
    let ctx4 := ctx3.failRepoSpan repoSpan.span_id
      ["Agent \"" ++ repo.agentName ++ "\" failed: " ++ msg]
    (ctx4, results ++ [none], true)

/-- `executeMultiRepoWithSpans` from `execution/spans.ts`: sequential loop
over the entries, then aggregation (only when no entry failed; an aggregator
error leaves the payload absent), then `finalize`. -/
def executeMultiRepoWithSpans {α β : Type} (coreName : String)
    (parentSpanId : Option Nat) (repos : List (RepoEntry β))
    (aggregator : List (Option β) → Except String α) :
    CoreExecutionResult α :=
  let init := (ExecutionContext.new coreName parentSpanId,
    ([] : List (Option β)), false)
  let final := repos.foldl multiRepoStep init
  let ctx := final.1
  let results := final.2.1
  let hasFailure := final.2.2
  let aggregatedResult : Option α :=
    if hasFailure then none
    else
      match aggregator results with
      | Except.ok v => some v
      | Except.error _ => none
  ctx.finalize aggregatedResult

/-- The evidence entry attached to the agent span of a multi-repo entry whose
function succeeded (`sid` is the agent span's id). -/
def agentEvidenceOf {β : Type} (e : RepoEntry β) (sid : Nat) : SpanEvidence :=
  { type := EvidenceType.id
    value := e.repoName ++ ":" ++ e.operation ++ ":" ++ Nat.repr sid
    description := "Completed " ++ e.operation ++ " via " ++ e.agentName }

/-- Final state of the repo span of a multi-repo entry: completed when the
entry's function resolved, failed with the echoed agent message otherwise
(`c` is the core span id, `sid` the repo span's id). -/
def repoFinalOf {β : Type} (c sid : Nat) (e : RepoEntry β) : ExecutionSpan :=
  match e.fn with
  | Except.ok _ => completeSpan (createRepoSpan e.repoName c sid)
  | Except.error msg =>
    failSpan (createRepoSpan e.repoName c sid)
      ["Agent \"" ++ e.agentName ++ "\" failed: " ++ msg]

/-- Final state of the agent span of a multi-repo entry (`sid` is the repo
span's id; the agent span's id is `sid + 1`). -/
def agentFinalOf {β : Type} (sid : Nat) (e : RepoEntry β) : ExecutionSpan :=
  match e.fn with
  | Except.ok _ =>
    completeSpan (attachEvidence
      (createAgentSpan e.agentName e.operation sid (sid + 1))
      (agentEvidenceOf e (sid + 1)))
  | Except.error msg =>
    failSpan (createAgentSpan e.agentName e.operation sid (sid + 1)) [msg]

/-- The pair of spans one multi-repo entry contributes to the graph. -/
def entryBlock {β : Type} (c sid : Nat) (e : RepoEntry β) :
    List ExecutionSpan :=
  [repoFinalOf c sid e, agentFinalOf sid e]

/-- The spans contributed by a list of multi-repo entries, two per entry,
with ids counting up from `sid`. -/
def blocks {β : Type} (c sid : Nat) : List (RepoEntry β) → List ExecutionSpan
  | [] => []
  | e :: rest => entryBlock c sid e ++ blocks c (sid + 2) rest

/-- The entry result recorded in the wrapper's `results` array: the resolved
value, or the null placeholder when the entry's function threw. -/
def entryResult {β : Type} (e : RepoEntry β) : Option β :=
  match e.fn with
  | Except.ok v => some v
  | Except.error _ => none

/-- Whether a multi-repo entry's function threw. -/
def entryFailed {β : Type} (e : RepoEntry β) : Bool :=
  match e.fn with
  | Except.ok _ => false
  | Except.error _ => true

/-- Span values reachable from the factory functions by any finite sequence
of Span Model operations. -/
inductive Reachable : ExecutionSpan → Prop
  | core : ∀ (name : String) (p : Option Nat) (sid : Nat),
      Reachable (createCoreSpan name p sid)
  | repo : ∀ (rn : String) (p sid : Nat), Reachable (createRepoSpan rn p sid)
  | agent : ∀ (an op : String) (p sid : Nat),
      Reachable (createAgentSpan an op p sid)
  | complete : ∀ {s : ExecutionSpan}, Reachable s → Reachable (completeSpan s)
  | fail : ∀ {s : ExecutionSpan} (reasons : List String),
      Reachable s → Reachable (failSpan s reasons)
  | artifact : ∀ {s : ExecutionSpan} (a : SpanArtifact),
      Reachable s → Reachable (attachArtifact s a)
  | evidence : ∀ {s : ExecutionSpan} (e : SpanEvidence),
      Reachable s → Reachable (attachEvidence s e)

/-- Span values reachable under the documented lifecycle discipline: a span
transitions at most once to a terminal state, so `completeSpan` is only
applied to spans that are not already failed. -/
inductive ReachableLC : ExecutionSpan → Prop
  | core : ∀ (name : String) (p : Option Nat) (sid : Nat),
      ReachableLC (createCoreSpan name p sid)
  | repo : ∀ (rn : String) (p sid : Nat),
      ReachableLC (createRepoSpan rn p sid)
  | agent : ∀ (an op : String) (p sid : Nat),
      ReachableLC (createAgentSpan an op p sid)
  | complete : ∀ {s : ExecutionSpan}, ReachableLC s →
      s.status ≠ SpanStatus.failed → ReachableLC (completeSpan s)
  | fail : ∀ {s : ExecutionSpan} (reasons : List String),
      ReachableLC s → ReachableLC (failSpan s reasons)
  | artifact : ∀ {s : ExecutionSpan} (a : SpanArtifact),
      ReachableLC s → ReachableLC (attachArtifact s a)
  | evidence : ∀ {s : ExecutionSpan} (e : SpanEvidence),
      ReachableLC s → ReachableLC (attachEvidence s e)

/-- A failed core-typed span as an instrumentation-aware collaborator could
hand back through `ingestRepoSpans` (its ids play the role of the
collaborator's own UUIDs). -/
def ingestedFailedCore : ExecutionSpan :=
  { span_id := 100
    parent_span_id := none
    type := SpanType.core
    name := "external-core"
    repo_name := none
    agent_name := none
    operation := none
    status := SpanStatus.failed
    start_time := tNow
    end_time := some tNow
    artifacts := []
    evidence := []
    failure_reasons := ["external failure"] }

/-- A completed repo span parented to `ingestedFailedCore`. -/
def ingestedRepo : ExecutionSpan :=
  { span_id := 101
    parent_span_id := some 100
    type := SpanType.repo
    name := "repo:external"
    repo_name := some "external"
    agent_name := none
    operation := none
    status := SpanStatus.completed
    start_time := tNow
    end_time := some tNow
    artifacts := []
    evidence := []
    failure_reasons := [] }

/-- A completed agent span parented to `ingestedRepo`. -/
def ingestedAgent : ExecutionSpan :=
  { span_id := 102
    parent_span_id := some 101
    type := SpanType.agent
    name := "agent:external-agent:external-op"
    repo_name := none
    agent_name := some "external-agent"
    operation := some "external-op"
    status := SpanStatus.completed
    start_time := tNow
    end_time := some tNow
    artifacts := []
    evidence := []
    failure_reasons := [] }

/-- A context reached through the public API: one completed repo/agent pair
of its own, plus an ingested sub-graph whose root is a failed core-typed
span.  No non-core span in it is failed, yet its finalization fails. -/
def contextWithIngestedFailedCore : ExecutionContext :=
  let ctx := ExecutionContext.new "ecosystem-core" none
  let repoStart := ctx.startRepoSpan "marketplace"
  let agentStart :=
    repoStart.2.startAgentSpan repoStart.1.span_id "marketplace-agent"
      "list_artifacts"
  let ctx2 := ((agentStart.2.completeAgentSpan agentStart.1.span_id).completeRepoSpan
    repoStart.1.span_id)
  ctx2.ingestRepoSpans [ingestedFailedCore, ingestedRepo, ingestedAgent]

/-- A non-core span whose `parent_span_id` is absent. -/
def orphanRepoSpan : ExecutionSpan :=
  { span_id := 1
    parent_span_id := none
    type := SpanType.repo
    name := "repo:orphan"
    repo_name := some "orphan"
    agent_name := none
    operation := none
    status := SpanStatus.completed
    start_time := tNow
    end_time := some tNow
    artifacts := []
    evidence := []
    failure_reasons := [] }

/-- Graph with one core span and one non-core span whose parent is absent. -/
def nullParentGraph : ExecutionGraph :=
  { spans := [createCoreSpan "core" none 0, orphanRepoSpan] }

/-- Graph with a core span and a repo span whose parent id 99 resolves to
no span. -/
def orphanParentGraph : ExecutionGraph :=
  { spans := [createCoreSpan "core" none 0, createRepoSpan "m" 99 1] }

/-- Graph whose single core span carries one evidence entry with the
whitespace-only (hence non-empty) value " ". -/
def whitespaceEvidenceGraph : ExecutionGraph :=
  { spans := [attachEvidence (createCoreSpan "core" none 0)
      { type := EvidenceType.id, value := " ", description := "proof" }] }

/-- A span obtained from a factory by a finite sequence of Span Model
operations: fail it, then complete it. -/
def failedThenCompletedSpan : ExecutionSpan :=
  completeSpan (failSpan (createCoreSpan "core" none 0) ["boom"])

/-! ### Basic facts about the span transition functions -/

@[simp] theorem completeSpan_span_id (s : ExecutionSpan) :
    (completeSpan s).span_id = s.span_id := rfl

@[simp] theorem completeSpan_parent (s : ExecutionSpan) :
    (completeSpan s).parent_span_id = s.parent_span_id := rfl

@[simp] theorem completeSpan_type (s : ExecutionSpan) :
    (completeSpan s).type = s.type := rfl

@[simp] theorem completeSpan_status (s : ExecutionSpan) :
    (completeSpan s).status = SpanStatus.completed := rfl

@[simp] theorem completeSpan_evidence (s : ExecutionSpan) :
    (completeSpan s).evidence = s.evidence := rfl

@[simp] theorem completeSpan_artifacts (s : ExecutionSpan) :
    (completeSpan s).artifacts = s.artifacts := rfl

@[simp] theorem completeSpan_failure_reasons (s : ExecutionSpan) :
    (completeSpan s).failure_reasons = s.failure_reasons := rfl

@[simp] theorem completeSpan_name (s : ExecutionSpan) :
    (completeSpan s).name = s.name := rfl

@[simp] theorem completeSpan_repo_name (s : ExecutionSpan) :
    (completeSpan s).repo_name = s.repo_name := rfl

@[simp] theorem completeSpan_agent_name (s : ExecutionSpan) :
    (completeSpan s).agent_name = s.agent_name := rfl

@[simp] theorem completeSpan_operation (s : ExecutionSpan) :
    (completeSpan s).operation = s.operation := rfl

@[simp] theorem failSpan_span_id (s : ExecutionSpan) (r : List String) :
    (failSpan s r).span_id = s.span_id := rfl

@[simp] theorem failSpan_parent (s : ExecutionSpan) (r : List String) :
    (failSpan s r).parent_span_id = s.parent_span_id := rfl

@[simp] theorem failSpan_type (s : ExecutionSpan) (r : List String) :
    (failSpan s r).type = s.type := rfl

@[simp] theorem failSpan_status (s : ExecutionSpan) (r : List String) :
    (failSpan s r).status = SpanStatus.failed := rfl

@[simp] theorem failSpan_evidence (s : ExecutionSpan) (r : List String) :
    (failSpan s r).evidence = s.evidence := rfl

@[simp] theorem failSpan_artifacts (s : ExecutionSpan) (r : List String) :
    (failSpan s r).artifacts = s.artifacts := rfl

@[simp] theorem failSpan_failure_reasons (s : ExecutionSpan) (r : List String) :
    (failSpan s r).failure_reasons = s.failure_reasons ++ r := rfl

@[simp] theorem failSpan_name (s : ExecutionSpan) (r : List String) :
    (failSpan s r).name = s.name := rfl

@[simp] theorem failSpan_repo_name (s : ExecutionSpan) (r : List String) :
    (failSpan s r).repo_name = s.repo_name := rfl

@[simp] theorem failSpan_agent_name (s : ExecutionSpan) (r : List String) :
    (failSpan s r).agent_name = s.agent_name := rfl

@[simp] theorem failSpan_operation (s : ExecutionSpan) (r : List String) :
    (failSpan s r).operation = s.operation := rfl

@[simp] theorem attachEvidence_span_id (s : ExecutionSpan) (e : SpanEvidence) :
    (attachEvidence s e).span_id = s.span_id := rfl

@[simp] theorem attachEvidence_parent (s : ExecutionSpan) (e : SpanEvidence) :
    (attachEvidence s e).parent_span_id = s.parent_span_id := rfl

@[simp] theorem attachEvidence_type (s : ExecutionSpan) (e : SpanEvidence) :
    (attachEvidence s e).type = s.type := rfl

@[simp] theorem attachEvidence_status (s : ExecutionSpan) (e : SpanEvidence) :
    (attachEvidence s e).status = s.status := rfl

@[simp] theorem attachEvidence_evidence (s : ExecutionSpan) (e : SpanEvidence) :
    (attachEvidence s e).evidence = s.evidence ++ [e] := rfl

@[simp] theorem attachEvidence_artifacts (s : ExecutionSpan) (e : SpanEvidence) :
    (attachEvidence s e).artifacts = s.artifacts := rfl

@[simp] theorem attachEvidence_failure_reasons (s : ExecutionSpan)
    (e : SpanEvidence) :
    (attachEvidence s e).failure_reasons = s.failure_reasons := rfl

@[simp] theorem attachEvidence_name (s : ExecutionSpan) (e : SpanEvidence) :
    (attachEvidence s e).name = s.name := rfl

@[simp] theorem attachEvidence_agent_name (s : ExecutionSpan) (e : SpanEvidence) :
    (attachEvidence s e).agent_name = s.agent_name := rfl

@[simp] theorem attachEvidence_operation (s : ExecutionSpan) (e : SpanEvidence) :
    (attachEvidence s e).operation = s.operation := rfl

@[simp] theorem attachArtifact_span_id (s : ExecutionSpan) (a : SpanArtifact) :
    (attachArtifact s a).span_id = s.span_id := rfl

@[simp] theorem attachArtifact_status (s : ExecutionSpan) (a : SpanArtifact) :
    (attachArtifact s a).status = s.status := rfl

@[simp] theorem attachArtifact_type (s : ExecutionSpan) (a : SpanArtifact) :
    (attachArtifact s a).type = s.type := rfl

@[simp] theorem attachArtifact_parent (s : ExecutionSpan) (a : SpanArtifact) :
    (attachArtifact s a).parent_span_id = s.parent_span_id := rfl

@[simp] theorem attachArtifact_evidence (s : ExecutionSpan) (a : SpanArtifact) :
    (attachArtifact s a).evidence = s.evidence := rfl

@[simp] theorem attachArtifact_artifacts (s : ExecutionSpan) (a : SpanArtifact) :
    (attachArtifact s a).artifacts = s.artifacts ++ [a] := rfl

@[simp] theorem attachArtifact_failure_reasons (s : ExecutionSpan)
    (a : SpanArtifact) :
    (attachArtifact s a).failure_reasons = s.failure_reasons := rfl

@[simp] theorem createCoreSpan_span_id (n : String) (p : Option Nat) (i : Nat) :
    (createCoreSpan n p i).span_id = i := rfl

@[simp] theorem createCoreSpan_parent (n : String) (p : Option Nat) (i : Nat) :
    (createCoreSpan n p i).parent_span_id = p := rfl

@[simp] theorem createCoreSpan_type (n : String) (p : Option Nat) (i : Nat) :
    (createCoreSpan n p i).type = SpanType.core := rfl

@[simp] theorem createCoreSpan_status (n : String) (p : Option Nat) (i : Nat) :
    (createCoreSpan n p i).status = SpanStatus.running := rfl

@[simp] theorem createCoreSpan_evidence (n : String) (p : Option Nat) (i : Nat) :
    (createCoreSpan n p i).evidence = [] := rfl

@[simp] theorem createCoreSpan_artifacts (n : String) (p : Option Nat) (i : Nat) :
    (createCoreSpan n p i).artifacts = [] := rfl

@[simp] theorem createCoreSpan_failure_reasons (n : String) (p : Option Nat)
    (i : Nat) : (createCoreSpan n p i).failure_reasons = [] := rfl

@[simp] theorem createRepoSpan_span_id (n : String) (p i : Nat) :
    (createRepoSpan n p i).span_id = i := rfl

@[simp] theorem createRepoSpan_parent (n : String) (p i : Nat) :
    (createRepoSpan n p i).parent_span_id = some p := rfl

@[simp] theorem createRepoSpan_type (n : String) (p i : Nat) :
    (createRepoSpan n p i).type = SpanType.repo := rfl

@[simp] theorem createRepoSpan_repo_name (n : String) (p i : Nat) :
    (createRepoSpan n p i).repo_name = some n := rfl

@[simp] theorem createRepoSpan_status (n : String) (p i : Nat) :
    (createRepoSpan n p i).status = SpanStatus.running := rfl

@[simp] theorem createRepoSpan_evidence (n : String) (p i : Nat) :
    (createRepoSpan n p i).evidence = [] := rfl

@[simp] theorem createRepoSpan_artifacts (n : String) (p i : Nat) :
    (createRepoSpan n p i).artifacts = [] := rfl

@[simp] theorem createRepoSpan_failure_reasons (n : String) (p i : Nat) :
    (createRepoSpan n p i).failure_reasons = [] := rfl

@[simp] theorem createAgentSpan_span_id (a o : String) (p i : Nat) :
    (createAgentSpan a o p i).span_id = i := rfl

@[simp] theorem createAgentSpan_parent (a o : String) (p i : Nat) :
    (createAgentSpan a o p i).parent_span_id = some p := rfl

@[simp] theorem createAgentSpan_type (a o : String) (p i : Nat) :
    (createAgentSpan a o p i).type = SpanType.agent := rfl

@[simp] theorem createAgentSpan_agent_name (a o : String) (p i : Nat) :
    (createAgentSpan a o p i).agent_name = some a := rfl

@[simp] theorem createAgentSpan_operation (a o : String) (p i : Nat) :
    (createAgentSpan a o p i).operation = some o := rfl

@[simp] theorem createAgentSpan_status (a o : String) (p i : Nat) :
    (createAgentSpan a o p i).status = SpanStatus.running := rfl

@[simp] theorem createAgentSpan_evidence (a o : String) (p i : Nat) :
    (createAgentSpan a o p i).evidence = [] := rfl

@[simp] theorem createAgentSpan_artifacts (a o : String) (p i : Nat) :
    (createAgentSpan a o p i).artifacts = [] := rfl

@[simp] theorem createAgentSpan_failure_reasons (a o : String) (p i : Nat) :
    (createAgentSpan a o p i).failure_reasons = [] := rfl

/-! ### Facts about the replace-by-id operation -/

@[simp] theorem updateSpanList_nil (sid : Nat)
    (f : ExecutionSpan → ExecutionSpan) : updateSpanList sid f [] = [] := rfl

theorem updateSpanList_cons_of_eq (sid : Nat)
    (f : ExecutionSpan → ExecutionSpan) (s : ExecutionSpan)
    (l : List ExecutionSpan) (h : s.span_id = sid) :
    updateSpanList sid f (s :: l) = f s :: l := by
  simp [updateSpanList, h]

theorem updateSpanList_cons_of_ne (sid : Nat)
    (f : ExecutionSpan → ExecutionSpan) (s : ExecutionSpan)
    (l : List ExecutionSpan) (h : ¬ s.span_id = sid) :
    updateSpanList sid f (s :: l) = s :: updateSpanList sid f l := by
  simp [updateSpanList, h]

theorem updateSpanList_of_forall_ne (sid : Nat)
    (f : ExecutionSpan → ExecutionSpan) (l : List ExecutionSpan)
    (h : ∀ s ∈ l, s.span_id ≠ sid) :
    updateSpanList sid f l = l := by
  induction l with
  | nil => rfl
  | cons s rest ih =>
    rw [updateSpanList_cons_of_ne sid f s rest (h s (List.mem_cons_self s rest))]
    rw [ih (fun t ht => h t (List.mem_cons_of_mem s ht))]

theorem updateSpanList_append_of_forall_ne (sid : Nat)
    (f : ExecutionSpan → ExecutionSpan) (l₁ l₂ : List ExecutionSpan)
    (h : ∀ s ∈ l₁, s.span_id ≠ sid) :
    updateSpanList sid f (l₁ ++ l₂) = l₁ ++ updateSpanList sid f l₂ := by
  induction l₁ with
  | nil => rfl
  | cons s rest ih =>
    rw [List.cons_append,
      updateSpanList_cons_of_ne sid f s (rest ++ l₂)
        (h s (List.mem_cons_self s rest)),
      ih (fun t ht => h t (List.mem_cons_of_mem s ht)), List.cons_append]

@[simp] theorem length_updateSpanList (sid : Nat)
    (f : ExecutionSpan → ExecutionSpan) (l : List ExecutionSpan) :
    (updateSpanList sid f l).length = l.length := by
  induction l with
  | nil => rfl
  | cons s rest ih =>
    by_cases h : s.span_id = sid
    · rw [updateSpanList_cons_of_eq sid f s rest h]
      simp
    · rw [updateSpanList_cons_of_ne sid f s rest h]
      simp [ih]

/-! ### Facts about the multi-repo loop -/

@[simp] theorem blocks_nil {β : Type} (c sid : Nat) :
    blocks c sid ([] : List (RepoEntry β)) = [] := rfl

theorem blocks_cons {β : Type} (c sid : Nat) (e : RepoEntry β)
    (rest : List (RepoEntry β)) :
    blocks c sid (e :: rest) = entryBlock c sid e ++ blocks c (sid + 2) rest :=
  rfl

@[simp] theorem repoFinalOf_span_id {β : Type} (c sid : Nat) (e : RepoEntry β) :
    (repoFinalOf c sid e).span_id = sid := by
  cases hfn : e.fn <;> simp [repoFinalOf, hfn]

@[simp] theorem repoFinalOf_parent {β : Type} (c sid : Nat) (e : RepoEntry β) :
    (repoFinalOf c sid e).parent_span_id = some c := by
  cases hfn : e.fn <;> simp [repoFinalOf, hfn]

@[simp] theorem repoFinalOf_type {β : Type} (c sid : Nat) (e : RepoEntry β) :
    (repoFinalOf c sid e).type = SpanType.repo := by
  cases hfn : e.fn <;> simp [repoFinalOf, hfn]

@[simp] theorem repoFinalOf_repo_name {β : Type} (c sid : Nat)
    (e : RepoEntry β) : (repoFinalOf c sid e).repo_name = some e.repoName := by
  cases hfn : e.fn <;> simp [repoFinalOf, hfn]

@[simp] theorem repoFinalOf_evidence {β : Type} (c sid : Nat)
    (e : RepoEntry β) : (repoFinalOf c sid e).evidence = [] := by
  cases hfn : e.fn <;> simp [repoFinalOf, hfn]

@[simp] theorem repoFinalOf_artifacts {β : Type} (c sid : Nat)
    (e : RepoEntry β) : (repoFinalOf c sid e).artifacts = [] := by
  cases hfn : e.fn <;> simp [repoFinalOf, hfn]

@[simp] theorem agentFinalOf_span_id {β : Type} (sid : Nat) (e : RepoEntry β) :
    (agentFinalOf sid e).span_id = sid + 1 := by
  cases hfn : e.fn <;> simp [agentFinalOf, hfn]

@[simp] theorem agentFinalOf_parent {β : Type} (sid : Nat) (e : RepoEntry β) :
    (agentFinalOf sid e).parent_span_id = some sid := by
  cases hfn : e.fn <;> simp [agentFinalOf, hfn]

@[simp] theorem agentFinalOf_type {β : Type} (sid : Nat) (e : RepoEntry β) :
    (agentFinalOf sid e).type = SpanType.agent := by
  cases hfn : e.fn <;> simp [agentFinalOf, hfn]

@[simp] theorem agentFinalOf_agent_name {β : Type} (sid : Nat)
    (e : RepoEntry β) :
    (agentFinalOf sid e).agent_name = some e.agentName := by
  cases hfn : e.fn <;> simp [agentFinalOf, hfn]

@[simp] theorem agentFinalOf_operation {β : Type} (sid : Nat)
    (e : RepoEntry β) :
    (agentFinalOf sid e).operation = some e.operation := by
  cases hfn : e.fn <;> simp [agentFinalOf, hfn]

@[simp] theorem agentFinalOf_artifacts {β : Type} (sid : Nat)
    (e : RepoEntry β) : (agentFinalOf sid e).artifacts = [] := by
  cases hfn : e.fn <;> simp [agentFinalOf, hfn]

@[simp] theorem length_blocks {β : Type} (c : Nat) (repos : List (RepoEntry β)) :
    ∀ sid, (blocks c sid repos).length = 2 * repos.length := by
  induction repos with
  | nil => intro sid; rfl
  | cons e rest ih =>
    intro sid
    simp [blocks_cons, entryBlock, ih (sid + 2)]
    ring

/-- A colon is not whitespace, so a string of the shape `a ++ ":" ++ b` is
never blank. -/
theorem isBlank_append_colon (a b : String) :
    isBlank (a ++ ":" ++ b) = false := by
  simp [isBlank, String.data_append]

theorem multiRepoStep_eq {β : Type} (ctx : ExecutionContext)
    (results : List (Option β)) (hf : Bool) (e : RepoEntry β)
    (hids : ∀ s ∈ ctx.spans, s.span_id < ctx.nextId) :
    multiRepoStep (ctx, results, hf) e =
      ({ coreSpan := ctx.coreSpan
         spans := ctx.spans ++ entryBlock ctx.coreSpan.span_id ctx.nextId e
         nextId := ctx.nextId + 2 },
       results ++ [entryResult e], hf || entryFailed e) := by
  have hne1 : ∀ s ∈ ctx.spans, ¬ s.span_id = ctx.nextId :=
    fun s hs => Nat.ne_of_lt (hids s hs)
  have hne2 : ∀ s ∈ ctx.spans, ¬ s.span_id = ctx.nextId + 1 := by
    intro s hs
    have := hids s hs
    omega
  cases hfn : e.fn with
  | ok v =>
    simp only [multiRepoStep, ExecutionContext.startRepoSpan,
      ExecutionContext.startAgentSpan, ExecutionContext.attachEvidenceToSpan,
      ExecutionContext.completeAgentSpan, ExecutionContext.completeRepoSpan,
      ExecutionContext.updateSpan, hfn, createRepoSpan_span_id,
      createAgentSpan_span_id, entryBlock, repoFinalOf, agentFinalOf,
      entryResult, entryFailed, agentEvidenceOf]
    rw [List.append_assoc, List.singleton_append]
    rw [updateSpanList_append_of_forall_ne _ _ _ _ hne2,
      updateSpanList_cons_of_ne _ _ _ _ (by simp),
      updateSpanList_cons_of_eq _ _ _ _ (by simp)]
    rw [updateSpanList_append_of_forall_ne _ _ _ _ hne2,
      updateSpanList_cons_of_ne _ _ _ _ (by simp),
      updateSpanList_cons_of_eq _ _ _ _ (by simp)]
    rw [updateSpanList_append_of_forall_ne _ _ _ _ hne1,
      updateSpanList_cons_of_eq _ _ _ _ (by simp)]
    simp
  | error msg =>
    simp only [multiRepoStep, ExecutionContext.startRepoSpan,
      ExecutionContext.startAgentSpan, ExecutionContext.failAgentSpan,
      ExecutionContext.failRepoSpan, ExecutionContext.updateSpan, hfn,
      createRepoSpan_span_id, createAgentSpan_span_id, entryBlock,
      repoFinalOf, agentFinalOf, entryResult, entryFailed]
    rw [List.append_assoc, List.singleton_append]
    rw [updateSpanList_append_of_forall_ne _ _ _ _ hne2,
      updateSpanList_cons_of_ne _ _ _ _ (by simp),
      updateSpanList_cons_of_eq _ _ _ _ (by simp)]
    rw [updateSpanList_append_of_forall_ne _ _ _ _ hne1,
      updateSpanList_cons_of_eq _ _ _ _ (by simp)]
    simp

theorem foldl_multiRepoStep {β : Type} (repos : List (RepoEntry β)) :
    ∀ (ctx : ExecutionContext) (results : List (Option β)) (hf : Bool),
    (∀ s ∈ ctx.spans, s.span_id < ctx.nextId) →
    repos.foldl multiRepoStep (ctx, results, hf) =
      ({ coreSpan := ctx.coreSpan
         spans := ctx.spans ++ blocks ctx.coreSpan.span_id ctx.nextId repos
         nextId := ctx.nextId + 2 * repos.length },
       results ++ repos.map entryResult,
       hf || repos.any entryFailed) := by
  induction repos with
  | nil =>
    intro ctx results hf _
    simp
  | cons e rest ih =>
    intro ctx results hf hids
    rw [List.foldl_cons, multiRepoStep_eq ctx results hf e hids]
    rw [ih _ _ _ ?_]
    · simp only [blocks_cons, List.append_assoc, List.map_cons, List.any_cons,
        List.cons_append, List.nil_append, List.singleton_append, Bool.or_assoc]
      refine congrArg₂ Prod.mk ?_ (by simp)
      have hn : ctx.nextId + 2 + 2 * rest.length = ctx.nextId + 2 * (rest.length + 1) := by
        omega
      simp [hn]
    · intro s hs
      rcases List.mem_append.mp hs with h | h
      · have := hids s h
        simp only []
        omega
      · rcases List.mem_cons.mp h with h1 | h1
        · subst h1
          simp
        · rcases List.mem_singleton.mp h1 with h2
          subst h2
          simp [entryBlock]

theorem mem_blocks {β : Type} (c : Nat) (repos : List (RepoEntry β)) :
    ∀ (sid : Nat) (s : ExecutionSpan), s ∈ blocks c sid repos →
    sid ≤ s.span_id ∧ s.artifacts = [] ∧
    (∀ ev ∈ s.evidence, isBlank ev.value = false) ∧
    ((s.type = SpanType.repo ∧ s.parent_span_id = some c ∧
        (∃ t ∈ blocks c sid repos, t.type = SpanType.agent ∧
          t.parent_span_id = some s.span_id)) ∨
     (s.type = SpanType.agent ∧ s.parent_span_id = some (s.span_id - 1) ∧
        s.span_id - 1 < s.span_id ∧
        (∃ t ∈ blocks c sid repos, t.span_id = s.span_id - 1))) := by
  induction repos with
  | nil =>
    intro sid s hs
    simp [blocks] at hs
  | cons e rest ih =>
    intro sid s hs
    rw [blocks_cons] at hs
    rcases List.mem_append.mp hs with h | h
    · rcases List.mem_cons.mp h with h1 | h1
      · subst h1
        refine ⟨by simp, by simp, by simp, Or.inl ⟨by simp, by simp, ?_⟩⟩
        refine ⟨agentFinalOf sid e, ?_, by simp, by simp⟩
        rw [blocks_cons]
        exact List.mem_append_left _ (by simp [entryBlock])
      · rcases List.mem_singleton.mp h1 with h2
        subst h2
        refine ⟨by simp, by simp, ?_, Or.inr ⟨by simp, by simp, by simp, ?_⟩⟩
        · intro ev hev
          cases hfn : e.fn with
          | ok v =>
            simp [agentFinalOf, hfn, agentEvidenceOf] at hev
            subst hev
            exact isBlank_append_colon _ _
          | error m => simp [agentFinalOf, hfn] at hev
        · refine ⟨repoFinalOf c sid e, ?_, by simp⟩
          rw [blocks_cons]
          exact List.mem_append_left _ (by simp [entryBlock])
    · obtain ⟨hle, hart, hev, hdisj⟩ := ih (sid + 2) s h
      refine ⟨by omega, hart, hev, ?_⟩
      rcases hdisj with ⟨h1, h2, t, ht, h3⟩ | ⟨h1, h2, h3, t, ht, h4⟩
      · exact Or.inl ⟨h1, h2, t, by
          rw [blocks_cons]
          exact List.mem_append_right _ ht, h3⟩
      · exact Or.inr ⟨h1, h2, h3, t, by
          rw [blocks_cons]
          exact List.mem_append_right _ ht, h4⟩

theorem mem_blocks_type_ne_core {β : Type} (c sid : Nat)
    (repos : List (RepoEntry β)) (s : ExecutionSpan)
    (hs : s ∈ blocks c sid repos) : s.type ≠ SpanType.core := by
  rcases (mem_blocks c repos sid s hs).2.2.2 with ⟨h, _⟩ | ⟨h, _⟩ <;>
    simp [h]

theorem mem_blocks_status_of_ok {β : Type} (c : Nat)
    (repos : List (RepoEntry β))
    (hok : ∀ e ∈ repos, entryFailed e = false) :
    ∀ sid s, s ∈ blocks c sid repos → s.status = SpanStatus.completed := by
  induction repos with
  | nil => intro sid s hs; simp [blocks] at hs
  | cons e rest ih =>
    intro sid s hs
    have hfe : entryFailed e = false := hok e (List.mem_cons_self e rest)
    rw [blocks_cons] at hs
    rcases List.mem_append.mp hs with h | h
    · cases hfn : e.fn with
      | ok v =>
        rcases List.mem_cons.mp h with h1 | h1
        · subst h1
          simp [repoFinalOf, hfn]
        · rcases List.mem_singleton.mp h1 with h2
          subst h2
          simp [agentFinalOf, hfn]
      | error m =>
        rw [entryFailed, hfn] at hfe
        simp at hfe
    · exact ih (fun t ht => hok t (List.mem_cons_of_mem e ht)) (sid + 2) s h

theorem exists_failed_mem_blocks {β : Type} (c : Nat)
    (repos : List (RepoEntry β)) :
    ∀ sid, (∃ e ∈ repos, entryFailed e = true) →
    ∃ s ∈ blocks c sid repos,
      s.status = SpanStatus.failed ∧ sid ≤ s.span_id := by
  induction repos with
  | nil => intro sid h; simp at h
  | cons e rest ih =>
    intro sid h
    rcases h with ⟨f, hf, hfail⟩
    rcases List.mem_cons.mp hf with h1 | h1
    · subst h1
      cases hfn : f.fn with
      | ok v =>
        rw [entryFailed, hfn] at hfail
        simp at hfail
      | error m =>
        refine ⟨repoFinalOf c sid f, ?_, ?_, by simp⟩
        · rw [blocks_cons]
          exact List.mem_append_left _ (by simp [entryBlock])
        · simp [repoFinalOf, hfn]
    · obtain ⟨s, hs, hstat, hle⟩ := ih (sid + 2) ⟨f, h1, hfail⟩
      refine ⟨s, ?_, hstat, by omega⟩
      rw [blocks_cons]
      exact List.mem_append_right _ hs

theorem blocks_getElem? {β : Type} (c : Nat) (repos : List (RepoEntry β)) :
    ∀ sid i (e : RepoEntry β), repos.get? i = some e →
      (blocks c sid repos).get? (2 * i) =
        some (repoFinalOf c (sid + 2 * i) e) ∧
      (blocks c sid repos).get? (2 * i + 1) =
        some (agentFinalOf (sid + 2 * i) e) := by
  induction repos with
  | nil => intro sid i e he; simp at he
  | cons f rest ih =>
    intro sid i e he
    cases i with
    | zero =>
      simp at he
      subst he
      rw [blocks_cons]
      constructor <;> simp [entryBlock]
    | succ i =>
      rw [List.get?_cons_succ] at he
      have h2 : 2 * (i + 1) = 2 * i + 1 + 1 := by omega
      obtain ⟨ha, hb⟩ := ih (sid + 2) i e he
      have hs : sid + 2 + 2 * i = sid + 2 * (i + 1) := by omega
      rw [hs] at ha hb
      constructor
      · rw [blocks_cons, entryBlock, h2]
        simpa using ha
      · rw [blocks_cons, entryBlock, h2]
        simpa using hb

theorem blocks_get?_span_id {β : Type} (c : Nat)
    (repos : List (RepoEntry β)) :
    ∀ sid j (s : ExecutionSpan), (blocks c sid repos).get? j = some s →
      s.span_id = sid + j := by
  induction repos with
  | nil => intro sid j s hs; simp [blocks] at hs
  | cons e rest ih =>
    intro sid j s hs
    rw [blocks_cons, entryBlock] at hs
    match j with
    | 0 =>
      simp at hs
      subst hs
      simp
    | 1 =>
      simp at hs
      subst hs
      simp
    | (jj + 2) =>
      simp only [List.cons_append, List.nil_append, List.get?_cons_succ] at hs
      have := ih (sid + 2) jj s hs
      omega

theorem blocks_get?_parent {β : Type} (c : Nat)
    (repos : List (RepoEntry β)) :
    ∀ sid j (s : ExecutionSpan), (blocks c sid repos).get? j = some s →
      s.parent_span_id = some c ∨ s.parent_span_id = some (sid + j - 1) := by
  induction repos with
  | nil => intro sid j s hs; simp [blocks] at hs
  | cons e rest ih =>
    intro sid j s hs
    rw [blocks_cons, entryBlock] at hs
    match j with
    | 0 =>
      simp at hs
      subst hs
      simp
    | 1 =>
      simp at hs
      subst hs
      right
      simp
    | (jj + 2) =>
      simp only [List.cons_append, List.nil_append, List.get?_cons_succ] at hs
      rcases ih (sid + 2) jj s hs with h | h
      · exact Or.inl h
      · right
        rw [h]
        congr 1
        omega

theorem multiRepo_eq_finalize {α β : Type} (coreName : String)
    (p : Option Nat) (repos : List (RepoEntry β))
    (aggregator : List (Option β) → Except String α) :
    executeMultiRepoWithSpans coreName p repos aggregator =
      ExecutionContext.finalize
        { coreSpan := createCoreSpan coreName p 0
          spans := createCoreSpan coreName p 0 :: blocks 0 1 repos
          nextId := 1 + 2 * repos.length }
        (if repos.any entryFailed then none
         else
           match aggregator (repos.map entryResult) with
           | Except.ok v => some v
           | Except.error _ => none) := by
  unfold executeMultiRepoWithSpans
  dsimp only
  rw [foldl_multiRepoStep repos _ _ _ (by simp [ExecutionContext.new])]
  simp [ExecutionContext.new]

/-- For a non-empty entry list, the graph built by the multi-repo wrapper
satisfies every validator invariant, whatever the entry outcomes, provided
the external parent id is not the (freshly generated) core span id. -/
theorem validate_multi_eq_nil {β : Type} (coreName : String) (p : Option Nat)
    (repos : List (RepoEntry β)) (hp : p ≠ some 0) (hne : repos ≠ []) :
    validateExecutionGraph
      { spans := createCoreSpan coreName p 0 :: blocks 0 1 repos } = [] := by
  have hmem : ∀ s ∈ blocks 0 1 repos,
      s ∈ createCoreSpan coreName p 0 :: blocks 0 1 repos := by
    intro s hs
    exact List.mem_cons_of_mem _ hs
  have hfilter_core :
      (createCoreSpan coreName p 0 :: blocks 0 1 repos).filter
        (fun s => s.type = SpanType.core) = [createCoreSpan coreName p 0] := by
    rw [List.filter_cons_of_pos (by simp)]
    rw [List.filter_eq_nil_iff.mpr]
    intro s hs
    simpa using mem_blocks_type_ne_core 0 1 repos s hs
  rw [validateExecutionGraph]
  rw [if_neg (by simp [hfilter_core])]
  have hhier : hierarchyFailures
      (createCoreSpan coreName p 0 :: blocks 0 1 repos) = [] := by
    rw [hierarchyFailures, hfilter_core]
    rw [List.flatMap_cons, List.flatMap_nil, List.append_nil]
    rw [createCoreSpan_span_id]
    rcases repos with _ | ⟨e, rest⟩
    · exact absurd rfl hne
    · have hrmem : repoFinalOf 0 1 e ∈
          (childrenOf (createCoreSpan coreName p 0 :: blocks 0 1 (e :: rest))
            0).filter (fun s => s.type = SpanType.repo) := by
        rw [List.mem_filter]
        constructor
        · rw [childrenOf, List.mem_filter]
          refine ⟨hmem _ ?_, by simp⟩
          rw [blocks_cons]
          exact List.mem_append_left _ (by simp [entryBlock])
        · simp
      have hne2 : ((childrenOf
          (createCoreSpan coreName p 0 :: blocks 0 1 (e :: rest)) 0).filter
            (fun s => s.type = SpanType.repo)).isEmpty = false := by
        rw [List.isEmpty_eq_false_iff_exists_mem]
        exact ⟨_, hrmem⟩
      rw [hne2]
      rw [if_neg (by simp), List.nil_append]
      rw [List.flatMap_eq_nil_iff]
      intro r hr
      rw [List.mem_filter] at hr
      obtain ⟨hr1, hr2⟩ := hr
      rw [childrenOf, List.mem_filter] at hr1
      obtain ⟨hr3, _⟩ := hr1
      have hrblocks : r ∈ blocks 0 1 (e :: rest) := by
        rcases List.mem_cons.mp hr3 with h | h
        · subst h
          simp at hr2
        · exact h
      obtain ⟨_, _, _, hdisj⟩ := mem_blocks 0 (e :: rest) 1 r hrblocks
      rcases hdisj with ⟨_, _, t, ht, htt, htp⟩ | ⟨habs, _⟩
      · have htmem : t ∈ (childrenOf
            (createCoreSpan coreName p 0 :: blocks 0 1 (e :: rest))
              r.span_id).filter (fun s => s.type = SpanType.agent) := by
          rw [List.mem_filter]
          refine ⟨?_, by simp [htt]⟩
          rw [childrenOf, List.mem_filter]
          exact ⟨hmem t ht, by simp [htp]⟩
        have hne3 : ((childrenOf
            (createCoreSpan coreName p 0 :: blocks 0 1 (e :: rest))
              r.span_id).filter
                (fun s => s.type = SpanType.agent)).isEmpty = false := by
          rw [List.isEmpty_eq_false_iff_exists_mem]
          exact ⟨_, htmem⟩
        rw [hne3]
        simp
      · simp [habs] at hr2
  have hparent : parentRefFailures
      (createCoreSpan coreName p 0 :: blocks 0 1 repos) = [] := by
    rw [parentRefFailures, List.flatMap_eq_nil_iff]
    intro s hs
    have hhas0 : hasSpanId
        (createCoreSpan coreName p 0 :: blocks 0 1 repos) 0 = true := by
      rw [hasSpanId, List.any_eq_true]
      exact ⟨createCoreSpan coreName p 0, List.mem_cons_self _ _, by simp⟩
    rcases List.mem_cons.mp hs with h | h
    · subst h
      rcases p with _ | q
      · simp [createCoreSpan]
      · simp
    · obtain ⟨_, _, _, hdisj⟩ := mem_blocks 0 repos 1 s h
      rcases hdisj with ⟨_, hpar, _⟩ | ⟨_, hpar, _, t, ht, htid⟩
      · rw [hpar]
        simp [hhas0]
      · have hhast : hasSpanId
            (createCoreSpan coreName p 0 :: blocks 0 1 repos)
              (s.span_id - 1) = true := by
          rw [hasSpanId, List.any_eq_true]
          exact ⟨t, hmem t ht, by simp [htid]⟩
        rw [hpar]
        simp [hhast]
  have hself : selfRefFailures
      (createCoreSpan coreName p 0 :: blocks 0 1 repos) = [] := by
    rw [selfRefFailures, List.flatMap_eq_nil_iff]
    intro s hs
    rcases List.mem_cons.mp hs with h | h
    · subst h
      simp [hp]
    · obtain ⟨hle, _, _, hdisj⟩ := mem_blocks 0 repos 1 s h
      rcases hdisj with ⟨_, hpar, _⟩ | ⟨_, hpar, hlt, _⟩
      · have : ¬ s.parent_span_id = some s.span_id := by
          rw [hpar]
          intro hcon
          have h0 : (0 : Nat) = s.span_id := by simpa using hcon
          omega
        simp [this]
      · have : ¬ s.parent_span_id = some s.span_id := by
          rw [hpar]
          intro hcon
          have h0 : s.span_id - 1 = s.span_id := by simpa using hcon
          omega
        simp [this]
  have hev : evidenceFailures
      (createCoreSpan coreName p 0 :: blocks 0 1 repos) = [] := by
    rw [evidenceFailures, List.flatMap_eq_nil_iff]
    intro s hs
    rw [List.flatMap_eq_nil_iff]
    intro ev hevmem
    rcases List.mem_cons.mp hs with h | h
    · subst h
      simp [createCoreSpan] at hevmem
    · obtain ⟨_, _, hblank, _⟩ := mem_blocks 0 repos 1 s h
      simp [hblank ev hevmem]
  have hart : artifactFailures
      (createCoreSpan coreName p 0 :: blocks 0 1 repos) = [] := by
    rw [artifactFailures, List.flatMap_eq_nil_iff]
    intro s hs
    rcases List.mem_cons.mp hs with h | h
    · subst h
      simp [createCoreSpan]
    · obtain ⟨_, hartnil, _, _⟩ := mem_blocks 0 repos 1 s h
      rw [hartnil]
      simp
  rw [hhier, hparent, hself, hev, hart]
  simp

/-- With every entry resolving and at least one entry, the multi-repo wrapper
succeeds: no validation failures, no failed children, empty reason list, core
completed, payload as produced by the aggregator. -/
theorem multi_finalize_ok {α β : Type} (coreName : String) (p : Option Nat)
    (repos : List (RepoEntry β))
    (aggregator : List (Option β) → Except String α) (hp : p ≠ some 0)
    (hne : repos ≠ []) (hok : ∀ e ∈ repos, entryFailed e = false) :
    (executeMultiRepoWithSpans coreName p repos aggregator).success = true ∧
    (executeMultiRepoWithSpans coreName p repos
      aggregator).validation_failures = [] ∧
    (executeMultiRepoWithSpans coreName p repos aggregator).failure_reasons =
      [] ∧
    (executeMultiRepoWithSpans coreName p repos aggregator).result =
      (match aggregator (repos.map entryResult) with
       | Except.ok v => some v
       | Except.error _ => none) ∧
    (executeMultiRepoWithSpans coreName p repos
      aggregator).execution_graph.spans =
      completeSpan (createCoreSpan coreName p 0) :: blocks 0 1 repos := by
  rw [multiRepo_eq_finalize]
  have hv := validate_multi_eq_nil (β := β) coreName p repos hp hne
  have hanyf : repos.any entryFailed = false := by
    rw [List.any_eq_false]
    intro e he
    simp [hok e he]
  have hfail : (createCoreSpan coreName p 0 :: blocks 0 1 repos).filter
      (fun s => s.span_id ≠ 0 ∧ s.status = SpanStatus.failed) = [] := by
    rw [List.filter_eq_nil_iff]
    intro s hs
    rcases List.mem_cons.mp hs with h | h
    · subst h
      simp
    · have := mem_blocks_status_of_ok 0 repos hok 1 s h
      simp [this]
  simp only [ExecutionContext.finalize, hv, hanyf, createCoreSpan_span_id,
    hfail]
  rw [updateSpanList_cons_of_eq _ _ _ _ (by simp)]
  simp

/-- With at least one entry throwing, the multi-repo wrapper fails and the
payload is absent. -/
theorem multi_finalize_failed {α β : Type} (coreName : String)
    (p : Option Nat) (repos : List (RepoEntry β))
    (aggregator : List (Option β) → Except String α)
    (hsome : ∃ e ∈ repos, entryFailed e = true) :
    (executeMultiRepoWithSpans coreName p repos aggregator).success = false ∧
    (executeMultiRepoWithSpans coreName p repos aggregator).result = none := by
  rw [multiRepo_eq_finalize]
  have hany : repos.any entryFailed = true := List.any_eq_true.mpr hsome
  obtain ⟨s, hsmem, hstat, hle⟩ :=
    exists_failed_mem_blocks 0 repos 1 hsome
  have hfailmem : s ∈ (createCoreSpan coreName p 0 :: blocks 0 1 repos).filter
      (fun s => s.span_id ≠ 0 ∧ s.status = SpanStatus.failed) := by
    rw [List.mem_filter]
    refine ⟨List.mem_cons_of_mem _ hsmem, ?_⟩
    simp only [decide_eq_true_eq]
    exact ⟨by omega, hstat⟩
  have hpos : 0 < ((createCoreSpan coreName p 0 :: blocks 0 1 repos).filter
      (fun s => s.span_id ≠ 0 ∧ s.status = SpanStatus.failed)).length :=
    List.length_pos.mpr (List.ne_nil_of_mem hfailmem)
  simp only [ExecutionContext.finalize, hany, createCoreSpan_span_id,
    if_pos hpos]
  simp

/-- Finalizing a context whose collection starts with the core span replaces
that head by its completed or failed version and keeps the tail. -/
theorem finalize_graph_spans {α : Type} (ctx : ExecutionContext)
    (r : Option α) (c : ExecutionSpan) (rest : List ExecutionSpan)
    (hspans : ctx.spans = c :: rest) (hid : c.span_id = ctx.coreSpan.span_id) :
    ∃ c0 : ExecutionSpan,
      (ctx.finalize r).execution_graph.spans = c0 :: rest ∧
      c0.span_id = c.span_id ∧ c0.type = c.type := by
  simp only [ExecutionContext.finalize, hspans]
  split_ifs <;>
    (rw [updateSpanList_cons_of_eq _ _ _ _ hid]
     exact ⟨_, rfl, by simp, by simp⟩)

/-- The multi-repo graph is always the (completed or failed) core span
followed by the per-entry blocks, whatever the outcome. -/
theorem multiRepo_graph_shape {α β : Type} (coreName : String)
    (p : Option Nat) (repos : List (RepoEntry β))
    (aggregator : List (Option β) → Except String α) :
    ∃ c0 : ExecutionSpan,
      (executeMultiRepoWithSpans coreName p repos
        aggregator).execution_graph.spans = c0 :: blocks 0 1 repos ∧
      c0.span_id = 0 ∧ c0.type = SpanType.core := by
  rw [multiRepo_eq_finalize]
  exact finalize_graph_spans
    { coreSpan := createCoreSpan coreName p 0
      spans := createCoreSpan coreName p 0 :: blocks 0 1 repos
      nextId := 1 + 2 * repos.length }
    _ (createCoreSpan coreName p 0) (blocks 0 1 repos) rfl (by simp)

/-- In a multi-repo span list (core followed by blocks starting at id 1),
the span stored at any position carries that position as its id. -/
theorem multi_spans_get?_id {β : Type} (c0 : ExecutionSpan)
    (repos : List (RepoEntry β)) (hc0 : c0.span_id = 0) :
    ∀ j (s : ExecutionSpan), (c0 :: blocks 0 1 repos).get? j = some s →
      s.span_id = j := by
  intro j s hj
  cases j with
  | zero =>
    rw [List.get?_cons_zero] at hj
    cases hj
    exact hc0
  | succ j =>
    rw [List.get?_cons_succ] at hj
    have := blocks_get?_span_id 0 repos 1 j s hj
    omega

/-- C9: the multi-repo graph's span sequence is exactly the core span
followed by one repo/agent pair per entry, in entry order, and every non-core
span's parent id belongs to a span at a strictly earlier position. -/
theorem executeMultiRepoWithSpans_span_order {α β : Type} (coreName : String)
    (p : Option Nat) (repos : List (RepoEntry β))
    (aggregator : List (Option β) → Except String α) :
    ((executeMultiRepoWithSpans coreName p repos
        aggregator).execution_graph.spans.length = 1 + 2 * repos.length) ∧
    (∃ c0 : ExecutionSpan,
      (executeMultiRepoWithSpans coreName p repos
        aggregator).execution_graph.spans.get? 0 = some c0 ∧
      c0.type = SpanType.core ∧ c0.span_id = 0) ∧
    (∀ i (e : RepoEntry β), repos.get? i = some e →
      ∃ rs as : ExecutionSpan,
        (executeMultiRepoWithSpans coreName p repos
          aggregator).execution_graph.spans.get? (1 + 2 * i) = some rs ∧
        (executeMultiRepoWithSpans coreName p repos
          aggregator).execution_graph.spans.get? (2 + 2 * i) = some as ∧
        rs.type = SpanType.repo ∧ rs.repo_name = some e.repoName ∧
        rs.parent_span_id = some 0 ∧
        as.type = SpanType.agent ∧ as.agent_name = some e.agentName ∧
        as.operation = some e.operation ∧
        as.parent_span_id = some rs.span_id) ∧
    (∀ j (s : ExecutionSpan),
      (executeMultiRepoWithSpans coreName p repos
        aggregator).execution_graph.spans.get? j = some s →
      0 < j → ∀ q, s.parent_span_id = some q →
      ∃ (i : Nat) (t : ExecutionSpan), i < j ∧
        (executeMultiRepoWithSpans coreName p repos
          aggregator).execution_graph.spans.get? i = some t ∧
        t.span_id = q) := by
  obtain ⟨c0, hspans, hc0id, hc0type⟩ :=
    multiRepo_graph_shape coreName p repos aggregator
  rw [hspans]
  refine ⟨by simp; omega, ⟨c0, by simp, hc0type, hc0id⟩, ?_, ?_⟩
  · intro i e he
    obtain ⟨ha, hb⟩ := blocks_getElem? 0 repos 1 i e he
    have h1 : 1 + 2 * i = 2 * i + 1 := by omega
    rw [h1] at ha hb
    refine ⟨repoFinalOf 0 (2 * i + 1) e, agentFinalOf (2 * i + 1) e,
      ?_, ?_, by simp, by simp, by simp, by simp, by simp, by simp, by simp⟩
    · rw [h1, List.get?_cons_succ]
      exact ha
    · have h2 : 2 + 2 * i = (2 * i + 1) + 1 := by omega
      rw [h2, List.get?_cons_succ]
      exact hb
  · intro j s hj hpos q hq
    cases j with
    | zero => omega
    | succ j =>
      have hjlen : j + 1 < (c0 :: blocks 0 1 repos).length := by
        rcases List.get?_eq_some.mp hj with ⟨h, _⟩
        exact h
      rw [List.get?_cons_succ] at hj
      rcases blocks_get?_parent 0 repos 1 j s hj with h | h
      · rw [hq] at h
        have hq0 : q = 0 := by simpa using h
        exact ⟨0, c0, by omega, by rw [List.get?_cons_zero], by
          rw [hq0, hc0id]⟩
      · rw [hq] at h
        have hqj : q = j := by
          have h2 := Option.some_inj.mp h
          omega
        have hjlt : j < (c0 :: blocks 0 1 repos).length := by omega
        refine ⟨j, (c0 :: blocks 0 1 repos).get ⟨j, hjlt⟩, by omega,
          List.get?_eq_get hjlt, ?_⟩
        rw [hqj]
        exact multi_spans_get?_id c0 repos hc0id j _ (List.get?_eq_get hjlt)

/-- C3 (amended): over k entries processed in order, the multi-repo graph
always contains exactly 1 + 2k spans; provided there is at least one entry,
if every entry's function resolves then the wrapper succeeds and, when the
aggregator returns w on the recorded results, the payload is w; if some
entry's function throws, the wrapper fails with an absent payload; the loop
records one result per entry in order (the resolved value, or a null
placeholder for a throwing entry, later entries still being processed); and
each entry's repo/agent pair ends completed when that entry resolved and
failed carrying the entry's error message when it threw.  The hypothesis on
the external parent id models the freshness of the generated core span id. -/
theorem executeMultiRepoWithSpans_spec {α β : Type} (coreName : String)
    (p : Option Nat) (repos : List (RepoEntry β))
    (aggregator : List (Option β) → Except String α) (hp : p ≠ some 0) :
    ((executeMultiRepoWithSpans coreName p repos
        aggregator).execution_graph.spans.length = 1 + 2 * repos.length) ∧
    (repos ≠ [] → (∀ e ∈ repos, ∃ v, e.fn = Except.ok v) →
      (executeMultiRepoWithSpans coreName p repos aggregator).success = true ∧
      ∀ w, aggregator (repos.map entryResult) = Except.ok w →
        (executeMultiRepoWithSpans coreName p repos aggregator).result =
          some w) ∧
    ((∃ e ∈ repos, ∃ m, e.fn = Except.error m) →
      (executeMultiRepoWithSpans coreName p repos aggregator).success =
        false ∧
      (executeMultiRepoWithSpans coreName p repos aggregator).result =
        none) ∧
    ((repos.foldl multiRepoStep
      (ExecutionContext.new coreName p, ([] : List (Option β)), false)).2.1 =
      repos.map entryResult) ∧
    (∀ i (e : RepoEntry β), repos.get? i = some e →
      ∃ rs as : ExecutionSpan,
        (executeMultiRepoWithSpans coreName p repos
          aggregator).execution_graph.spans.get? (1 + 2 * i) = some rs ∧
        (executeMultiRepoWithSpans coreName p repos
          aggregator).execution_graph.spans.get? (2 + 2 * i) = some as ∧
        (∀ v, e.fn = Except.ok v →
          rs.status = SpanStatus.completed ∧
          as.status = SpanStatus.completed) ∧
        (∀ m, e.fn = Except.error m →
          rs.status = SpanStatus.failed ∧
          rs.failure_reasons =
            ["Agent \"" ++ e.agentName ++ "\" failed: " ++ m] ∧
          as.status = SpanStatus.failed ∧ as.failure_reasons = [m])) := by
  obtain ⟨c0, hspans, hc0id, hc0type⟩ :=
    multiRepo_graph_shape coreName p repos aggregator
  refine ⟨?_, ?_, ?_, ?_, ?_⟩
  · rw [hspans]
    simp
    omega
  · intro hne hall
    have hok : ∀ e ∈ repos, entryFailed e = false := by
      intro e he
      rcases hall e he with ⟨v, hv⟩
      simp [entryFailed, hv]
    obtain ⟨h1, _, _, h4, _⟩ :=
      multi_finalize_ok coreName p repos aggregator hp hne hok
    refine ⟨h1, ?_⟩
    intro w hw
    rw [h4, hw]
  · intro hsome
    rcases hsome with ⟨e, he, m, hm⟩
    exact multi_finalize_failed coreName p repos aggregator
      ⟨e, he, by simp [entryFailed, hm]⟩
  · rw [foldl_multiRepoStep repos _ _ _ (by simp [ExecutionContext.new])]
    simp
  · intro i e he
    obtain ⟨ha, hb⟩ := blocks_getElem? 0 repos 1 i e he
    have h1 : 1 + 2 * i = 2 * i + 1 := by omega
    rw [h1] at ha hb
    refine ⟨repoFinalOf 0 (2 * i + 1) e, agentFinalOf (2 * i + 1) e,
      ?_, ?_, ?_, ?_⟩
    · rw [hspans, h1, List.get?_cons_succ]
      exact ha
    · have h2 : 2 + 2 * i = (2 * i + 1) + 1 := by omega
      rw [hspans, h2, List.get?_cons_succ]
      exact hb
    · intro v hv
      constructor <;> simp [repoFinalOf, agentFinalOf, hv]
    · intro m hm
      refine ⟨?_, ?_, ?_, ?_⟩ <;> simp [repoFinalOf, agentFinalOf, hm]

/-- C3 counterexample: with zero entries, every entry vacuously resolves yet
the wrapper reports failure (the validator's core_must_have_repo_children
rule fires), contradicting the unconditional success clause of the claim. -/
theorem executeMultiRepoWithSpans_empty_counterexample :
    (∀ e ∈ ([] : List (RepoEntry Nat)), ∃ v, e.fn = Except.ok v) ∧
    (executeMultiRepoWithSpans "ecosystem-core" none
      ([] : List (RepoEntry Nat)) (fun _ => Except.ok 0)).success = false := by
  constructor
  · intro e he
    simp at he
  · rfl

/-- C8 (amended to at least one entry): when every entry resolves but the
aggregator throws, no extra span is created (still 1 + 2k spans, all
completed), the payload is absent, and the wrapper still succeeds. -/
theorem executeMultiRepoWithSpans_aggregator_error_spec {α β : Type}
    (coreName : String) (p : Option Nat) (repos : List (RepoEntry β))
    (aggregator : List (Option β) → Except String α) (hp : p ≠ some 0)
    (hne : repos ≠ []) (hok : ∀ e ∈ repos, ∃ v, e.fn = Except.ok v)
    (m : String) (hagg : aggregator (repos.map entryResult) =
      Except.error m) :
    ((executeMultiRepoWithSpans coreName p repos
        aggregator).execution_graph.spans.length = 1 + 2 * repos.length) ∧
    (∀ s ∈ (executeMultiRepoWithSpans coreName p repos
        aggregator).execution_graph.spans,
      s.status = SpanStatus.completed) ∧
    (executeMultiRepoWithSpans coreName p repos
      aggregator).validation_failures = [] ∧
    (executeMultiRepoWithSpans coreName p repos aggregator).result = none ∧
    (executeMultiRepoWithSpans coreName p repos aggregator).success = true := by
  have hok2 : ∀ e ∈ repos, entryFailed e = false := by
    intro e he
    rcases hok e he with ⟨v, hv⟩
    simp [entryFailed, hv]
  obtain ⟨h1, h2, _, h4, h5⟩ :=
    multi_finalize_ok coreName p repos aggregator hp hne hok2
  refine ⟨?_, ?_, h2, ?_, h1⟩
  · rw [h5]
    simp
    omega
  · rw [h5]
    intro s hs
    rcases List.mem_cons.mp hs with h | h
    · subst h
      simp
    · exact mem_blocks_status_of_ok 0 repos hok2 1 s h
  · rw [h4, hagg]

/-- C8 counterexample: with zero entries and a throwing aggregator, every
entry vacuously resolves and the aggregator throws, yet success is false
(one validation failure) rather than the true the claim asserts. -/
theorem multiRepo_aggregator_error_empty_counterexample :
    (∀ e ∈ ([] : List (RepoEntry Nat)), ∃ v, e.fn = Except.ok v) ∧
    (executeMultiRepoWithSpans "ecosystem-core" none
      ([] : List (RepoEntry Nat))
      (fun _ => (Except.error "aggregation failed" : Except String Nat))
      ).success = false ∧
    (executeMultiRepoWithSpans "ecosystem-core" none
      ([] : List (RepoEntry Nat))
      (fun _ => (Except.error "aggregation failed" : Except String Nat))
      ).execution_graph.spans.length = 1 := by
  refine ⟨?_, rfl, rfl⟩
  intro e he
  simp at he

/-! ### Closed forms of the single-operation wrapper -/

theorem executeWithSpans_ok_eq {α : Type} (coreName : String)
    (p : Option Nat) (repoName agentName operation : String) (v : α)
    (hp : p ≠ some 0) :
    executeWithSpans coreName p repoName agentName operation (Except.ok v) =
      { success := true
        core_span_id := 0
        execution_graph := { spans :=
          [completeSpan (createCoreSpan coreName p 0),
           completeSpan (createRepoSpan repoName 0 1),
           completeSpan (attachEvidence (createAgentSpan agentName operation 1 2)
             { type := EvidenceType.id
               value := repoName ++ ":" ++ operation ++ ":" ++ Nat.repr 2
               description :=
                 "Completed " ++ operation ++ " via " ++ agentName })] }
        validation_failures := []
        failure_reasons := []
        result := some v } := by
  unfold executeWithSpans
  dsimp only
  simp only [ExecutionContext.new, ExecutionContext.startRepoSpan,
    ExecutionContext.startAgentSpan, ExecutionContext.attachEvidenceToSpan,
    ExecutionContext.completeAgentSpan, ExecutionContext.completeRepoSpan,
    ExecutionContext.updateSpan, createRepoSpan_span_id,
    createAgentSpan_span_id, createCoreSpan_span_id]
  norm_num
  simp only [updateSpanList, createCoreSpan_span_id, createRepoSpan_span_id,
    createAgentSpan_span_id, attachEvidence_span_id, completeSpan_span_id]
  norm_num
  simp only [ExecutionContext.finalize, validateExecutionGraph,
    hierarchyFailures, parentRefFailures, selfRefFailures, evidenceFailures,
    artifactFailures, childrenOf, hasSpanId]
  rcases p with _ | q <;>
    simp [hp, isBlank_append_colon, updateSpanList]

theorem executeWithSpans_error_eq {α : Type} (coreName : String)
    (p : Option Nat) (repoName agentName operation : String) (m : String)
    (hp : p ≠ some 0) :
    executeWithSpans (α := α) coreName p repoName agentName operation
        (Except.error m) =
      { success := false
        core_span_id := 0
        execution_graph := { spans :=
          [failSpan (createCoreSpan coreName p 0) ["2 child span(s) failed"],
           failSpan (createRepoSpan repoName 0 1)
             ["Agent \"" ++ agentName ++ "\" failed: " ++ m],
           failSpan (createAgentSpan agentName operation 1 2) [m]] }
        validation_failures := []
        failure_reasons := ["2 child span(s) failed"]
        result := none } := by
  unfold executeWithSpans
  dsimp only
  simp only [ExecutionContext.new, ExecutionContext.startRepoSpan,
    ExecutionContext.startAgentSpan, ExecutionContext.failAgentSpan,
    ExecutionContext.failRepoSpan, ExecutionContext.updateSpan,
    createRepoSpan_span_id, createAgentSpan_span_id, createCoreSpan_span_id]
  norm_num
  simp only [updateSpanList, createCoreSpan_span_id, createRepoSpan_span_id,
    createAgentSpan_span_id, failSpan_span_id]
  norm_num
  simp only [ExecutionContext.finalize, validateExecutionGraph,
    hierarchyFailures, parentRefFailures, selfRefFailures, evidenceFailures,
    artifactFailures, childrenOf, hasSpanId]
  rcases p with _ | q <;>
    simp [hp, updateSpanList, show Nat.repr 2 = "2" from rfl]

/-- C4: wrapping a function that resolves with v yields success, a graph of
exactly three spans — completed core, repo and agent — payload v, and exactly
one Evidence entry on the agent span, of type id, valued
repoName:operation:agentSpanId (the agent span's own id) with a description
naming the completed operation.  The hypothesis on the external parent id
models the freshness of the generated core span id. -/
theorem executeWithSpans_success_spec {α : Type} (coreName : String)
    (p : Option Nat) (repoName agentName operation : String) (v : α)
    (hp : p ≠ some 0) :
    (executeWithSpans coreName p repoName agentName operation
      (Except.ok v)).success = true ∧
    (executeWithSpans coreName p repoName agentName operation
      (Except.ok v)).result = some v ∧
    ∃ cs rs as : ExecutionSpan,
      (executeWithSpans coreName p repoName agentName operation
        (Except.ok v)).execution_graph.spans = [cs, rs, as] ∧
      cs.type = SpanType.core ∧ cs.status = SpanStatus.completed ∧
      rs.type = SpanType.repo ∧ rs.status = SpanStatus.completed ∧
      as.type = SpanType.agent ∧ as.status = SpanStatus.completed ∧
      as.evidence = [SpanEvidence.mk EvidenceType.id
        (repoName ++ ":" ++ operation ++ ":" ++ Nat.repr as.span_id)
        ("Completed " ++ operation ++ " via " ++ agentName)] := by
  rw [executeWithSpans_ok_eq coreName p repoName agentName operation v hp]
  exact ⟨rfl, rfl, _, _, _, rfl, by simp, by simp, by simp, by simp,
    by simp, by simp, by simp⟩

/-- C4 witness at a concrete resolving operation. -/
theorem executeWithSpans_success_spec_witness :
    (executeWithSpans "ecosystem-core" none "marketplace" "marketplace-agent"
      "list_artifacts" (Except.ok (42 : Nat))).success = true :=
  (executeWithSpans_success_spec "ecosystem-core" none "marketplace"
    "marketplace-agent" "list_artifacts" 42 (by simp)).1

/-- C2: wrapping a function that throws an error with message m never
propagates the exception: the wrapper returns success = false, an absent
payload, the agent span failed with exactly [m], the repo span failed with
the echoed reason, and the core span failed with the child-failure summary
counting both failed child spans.  The hypothesis on the external parent id
models the freshness of the generated core span id. -/
theorem executeWithSpans_failure_spec {α : Type} (coreName : String)
    (p : Option Nat) (repoName agentName operation : String) (m : String)
    (hp : p ≠ some 0) :
    (executeWithSpans (α := α) coreName p repoName agentName operation
      (Except.error m)).success = false ∧
    (executeWithSpans (α := α) coreName p repoName agentName operation
      (Except.error m)).result = none ∧
    ∃ cs rs as : ExecutionSpan,
      (executeWithSpans (α := α) coreName p repoName agentName operation
        (Except.error m)).execution_graph.spans = [cs, rs, as] ∧
      as.type = SpanType.agent ∧ as.status = SpanStatus.failed ∧
      as.failure_reasons = [m] ∧
      rs.type = SpanType.repo ∧ rs.status = SpanStatus.failed ∧
      rs.failure_reasons =
        ["Agent \"" ++ agentName ++ "\" failed: " ++ m] ∧
      cs.type = SpanType.core ∧ cs.status = SpanStatus.failed ∧
      cs.failure_reasons = ["2 child span(s) failed"] := by
  rw [executeWithSpans_error_eq coreName p repoName agentName operation m hp]
  exact ⟨rfl, rfl, _, _, _, rfl, by simp, by simp, by simp, by simp,
    by simp, by simp, by simp, by simp, by simp⟩

/-- C2 witness at the spec's concrete example error. -/
theorem executeWithSpans_failure_spec_witness :
    (executeWithSpans (α := Nat) "ecosystem-core" none "marketplace"
      "marketplace-agent" "list_artifacts"
      (Except.error "Connection refused")).success = false :=
  (executeWithSpans_failure_spec (α := Nat) "ecosystem-core" none
    "marketplace" "marketplace-agent" "list_artifacts" "Connection refused"
    (by simp)).1

/-- C10: every by-id lifecycle or attachment operation invoked with a span
id matching no recorded span raises no error and leaves the context
unchanged (a silent no-op). -/
theorem updateSpan_unknown_id_noop (ctx : ExecutionContext) (sid : Nat)
    (reasons : List String) (artifact : SpanArtifact)
    (evidence : SpanEvidence) (h : ∀ s ∈ ctx.spans, s.span_id ≠ sid) :
    ctx.completeRepoSpan sid = ctx ∧
    ctx.failRepoSpan sid reasons = ctx ∧
    ctx.completeAgentSpan sid = ctx ∧
    ctx.failAgentSpan sid reasons = ctx ∧
    ctx.attachArtifactToSpan sid artifact = ctx ∧
    ctx.attachEvidenceToSpan sid evidence = ctx := by
  have hno : ∀ f : ExecutionSpan → ExecutionSpan,
      updateSpanList sid f ctx.spans = ctx.spans :=
    fun f => updateSpanList_of_forall_ne sid f ctx.spans h
  obtain ⟨cs, sp, ni⟩ := ctx
  refine ⟨?_, ?_, ?_, ?_, ?_, ?_⟩ <;>
    simp [ExecutionContext.completeRepoSpan, ExecutionContext.failRepoSpan,
      ExecutionContext.completeAgentSpan, ExecutionContext.failAgentSpan,
      ExecutionContext.attachArtifactToSpan,
      ExecutionContext.attachEvidenceToSpan, ExecutionContext.updateSpan,
      hno]

/-- C10 witness: a fresh context holds only span id 0, so id 7 matches
nothing and completing repo span 7 changes nothing. -/
theorem updateSpan_unknown_id_noop_witness :
    (ExecutionContext.new "ecosystem-core" none).completeRepoSpan 7 =
      ExecutionContext.new "ecosystem-core" none :=
  (updateSpan_unknown_id_noop (ExecutionContext.new "ecosystem-core" none) 7
    ["reason"] (SpanArtifact.mk "art" "plan" "artifact" tNow)
    (SpanEvidence.mk EvidenceType.id "value" "description")
    (by intro s hs; rcases List.mem_singleton.mp hs with h; rw [h]; simp)).1

/-- C7 counterexample: the span reached by fail-then-complete has status
completed but non-empty failure_reasons, refuting the claim that every
reachable span keeps failure_reasons empty unless failed. -/
theorem span_invariant_counterexample :
    ¬ (∀ s : ExecutionSpan, Reachable s →
        s.status ≠ SpanStatus.failed → s.failure_reasons = []) := by
  intro h
  have hr : Reachable failedThenCompletedSpan := by
    unfold failedThenCompletedSpan
    exact Reachable.complete (Reachable.fail _ (Reachable.core _ _ _))
  have := h failedThenCompletedSpan hr (by simp [failedThenCompletedSpan])
  simp [failedThenCompletedSpan] at this

/-- C7 (amended): under the documented lifecycle discipline — a span
transitions at most once to a terminal state, so completeSpan is never
applied to an already-failed span — every reachable span value satisfies the
invariant that failure_reasons is empty unless status = failed; in
particular completing a not-yet-failed reachable span preserves it.
Completing an already-failed span instead retains its reasons under status
completed, which is what the counterexample exhibits. -/
theorem span_invariant_lifecycle (s : ExecutionSpan) (h : ReachableLC s) :
    s.status ≠ SpanStatus.failed → s.failure_reasons = [] := by
  induction h with
  | core name p sid => simp
  | repo rn p sid => simp
  | agent an op p sid => simp
  | complete hr hs ih =>
    intro _
    simpa using ih hs
  | fail reasons hr ih =>
    intro hc
    simp at hc
  | artifact a hr ih =>
    intro hc
    simpa using ih (by simpa using hc)
  | evidence e hr ih =>
    intro hc
    simpa using ih (by simpa using hc)

/-- C7 witness: completing a fresh (running) core span yields empty
failure_reasons. -/
theorem span_invariant_lifecycle_witness :
    (completeSpan (createCoreSpan "ecosystem-core" none 0)).failure_reasons =
      [] :=
  span_invariant_lifecycle _
    (ReachableLC.complete (ReachableLC.core "ecosystem-core" none 0)
      (by simp))
    (by simp)

/-! ### Which rule each validator scan can emit -/

theorem rule_of_mem_hierarchyFailures (l : List ExecutionSpan)
    (fl : ValidationFailure) (h : fl ∈ hierarchyFailures l) :
    fl.rule = "core_must_have_repo_children" ∨
    fl.rule = "repo_must_have_agent_children" := by
  rw [hierarchyFailures] at h
  rcases List.mem_flatMap.mp h with ⟨c, _, hc⟩
  rcases List.mem_append.mp hc with h1 | h1
  · left
    split at h1
    · rw [List.mem_singleton.mp h1]
    · simp at h1
  · right
    rcases List.mem_flatMap.mp h1 with ⟨r, _, hr⟩
    split at hr
    · rw [List.mem_singleton.mp hr]
    · simp at hr

theorem rule_of_mem_parentRefFailures (l : List ExecutionSpan)
    (fl : ValidationFailure) (h : fl ∈ parentRefFailures l) :
    fl.rule = "valid_parent_reference" := by
  rw [parentRefFailures] at h
  rcases List.mem_flatMap.mp h with ⟨s, _, hs⟩
  rcases hps : s.parent_span_id with _ | q <;> rw [hps] at hs <;>
    dsimp only at hs
  · simp at hs
  · split at hs
    · rw [List.mem_singleton.mp hs]
    · simp at hs

theorem rule_of_mem_selfRefFailures (l : List ExecutionSpan)
    (fl : ValidationFailure) (h : fl ∈ selfRefFailures l) :
    fl.rule = "no_self_reference" := by
  rw [selfRefFailures] at h
  rcases List.mem_flatMap.mp h with ⟨s, _, hs⟩
  split at hs
  · rw [List.mem_singleton.mp hs]
  · simp at hs

theorem rule_of_mem_evidenceFailures (l : List ExecutionSpan)
    (fl : ValidationFailure) (h : fl ∈ evidenceFailures l) :
    fl.rule = "evidence_must_be_verifiable" := by
  rw [evidenceFailures] at h
  rcases List.mem_flatMap.mp h with ⟨s, _, hs⟩
  rcases List.mem_flatMap.mp hs with ⟨ev, _, hev⟩
  split at hev
  · rw [List.mem_singleton.mp hev]
  · simp at hev

theorem rule_of_mem_artifactFailures (l : List ExecutionSpan)
    (fl : ValidationFailure) (h : fl ∈ artifactFailures l) :
    fl.rule = "artifact_must_have_id" := by
  rw [artifactFailures] at h
  rcases List.mem_flatMap.mp h with ⟨s, _, hs⟩
  rcases List.mem_flatMap.mp hs with ⟨a, _, ha⟩
  split at ha
  · rw [List.mem_singleton.mp ha]
  · simp at ha

theorem filter_rule_eq_nil (l : List ValidationFailure) (target : String)
    (h : ∀ fl ∈ l, fl.rule ≠ target) :
    l.filter (fun fl => fl.rule = target) = [] := by
  rw [List.filter_eq_nil_iff]
  intro fl hfl
  simp [h fl hfl]

theorem filter_rule_eq_self (l : List ValidationFailure) (target : String)
    (h : ∀ fl ∈ l, fl.rule = target) :
    l.filter (fun fl => fl.rule = target) = l := by
  rw [List.filter_eq_self]
  intro fl hfl
  simp [h fl hfl]

theorem hasSpanId_iff (l : List ExecutionSpan) (q : Nat) :
    hasSpanId l q = true ↔ ∃ t ∈ l, t.span_id = q := by
  rw [hasSpanId, List.any_eq_true]
  simp

/-- C5 (amended): in any graph holding a core span, the validator's
valid_parent_reference failures are exactly one per non-core span whose
parent_span_id is present but resolves to no span in the graph; a non-core
span whose parent_span_id is absent is skipped (the source only checks
truthy parent ids), and a span whose parent resolves yields none. -/
theorem validator_parent_reference_spec (g : ExecutionGraph)
    (hc : ∃ s ∈ g.spans, s.type = SpanType.core) :
    (validateExecutionGraph g).filter
        (fun fl => fl.rule = "valid_parent_reference") =
      g.spans.flatMap (fun s =>
        match s.parent_span_id with
        | some q =>
          if ¬ (∃ t ∈ g.spans, t.span_id = q) ∧ s.type ≠ SpanType.core then
            [ValidationFailure.mk (some s.span_id) "valid_parent_reference"
              ("Span \"" ++ s.name ++
                "\" references non-existent parent_span_id \"" ++
                Nat.repr q ++ "\"")]
          else []
        | none => []) := by
  have hccore : ((g.spans.filter
      (fun s => s.type = SpanType.core)).isEmpty = true) = False := by
    simp only [List.isEmpty_iff, eq_iff_iff, iff_false]
    intro hnil
    rcases hc with ⟨s, hs, ht⟩
    have : s ∈ g.spans.filter (fun s => s.type = SpanType.core) :=
      List.mem_filter.mpr ⟨hs, by simp [ht]⟩
    rw [hnil] at this
    simp at this
  rw [validateExecutionGraph, if_neg (by simp [hccore])]
  rw [List.filter_append, List.filter_append, List.filter_append,
    List.filter_append]
  rw [filter_rule_eq_nil _ _ (fun fl hfl => by
    rcases rule_of_mem_hierarchyFailures g.spans fl hfl with h | h <;>
      simp [h])]
  rw [filter_rule_eq_self _ _ (fun fl hfl =>
    rule_of_mem_parentRefFailures g.spans fl hfl)]
  rw [filter_rule_eq_nil _ _ (fun fl hfl => by
    simp [rule_of_mem_selfRefFailures g.spans fl hfl])]
  rw [filter_rule_eq_nil _ _ (fun fl hfl => by
    simp [rule_of_mem_evidenceFailures g.spans fl hfl])]
  rw [filter_rule_eq_nil _ _ (fun fl hfl => by
    simp [rule_of_mem_artifactFailures g.spans fl hfl])]
  rw [List.nil_append, List.append_nil, List.append_nil, List.append_nil]
  rw [parentRefFailures]
  apply List.flatMap_congr
  intro s _
  rcases hps : s.parent_span_id with _ | q
  · rfl
  · refine if_congr ?_ rfl rfl
    rw [hasSpanId_iff]

/-- C5 counterexample: a graph with a core span and a non-core span whose
parent_span_id is absent — such a parent resolves to nothing, yet the
validator emits no valid_parent_reference failure, contradicting the claim's
reading of absent parents. -/
theorem validator_null_parent_counterexample :
    (∃ s ∈ nullParentGraph.spans,
      s.type ≠ SpanType.core ∧ s.parent_span_id = none) ∧
    (validateExecutionGraph nullParentGraph).filter
      (fun fl => fl.rule = "valid_parent_reference") = [] := by
  constructor
  · refine ⟨orphanRepoSpan, ?_, by simp [orphanRepoSpan], rfl⟩
    simp [nullParentGraph]
  · decide

/-- C5 witness: a dangling (present) parent reference on a repo span is
reported exactly once. -/
theorem validator_parent_reference_spec_witness :
    (validateExecutionGraph orphanParentGraph).filter
        (fun fl => fl.rule = "valid_parent_reference") =
      orphanParentGraph.spans.flatMap (fun s =>
        match s.parent_span_id with
        | some q =>
          if ¬ (∃ t ∈ orphanParentGraph.spans, t.span_id = q) ∧
              s.type ≠ SpanType.core then
            [ValidationFailure.mk (some s.span_id) "valid_parent_reference"
              ("Span \"" ++ s.name ++
                "\" references non-existent parent_span_id \"" ++
                Nat.repr q ++ "\"")]
          else []
        | none => []) :=
  validator_parent_reference_spec orphanParentGraph
    ⟨createCoreSpan "core" none 0, by simp [orphanParentGraph], by simp⟩

/-- C6 (amended): in any graph holding a core span, the validator's
evidence_must_be_verifiable failures are exactly one per Evidence entry
whose value is empty or whitespace-only (the source tests
`!value || value.trim() === ''`); an entry whose value contains any
non-whitespace character yields none. -/
theorem validator_evidence_spec (g : ExecutionGraph)
    (hc : ∃ s ∈ g.spans, s.type = SpanType.core) :
    (validateExecutionGraph g).filter
        (fun fl => fl.rule = "evidence_must_be_verifiable") =
      g.spans.flatMap (fun s =>
        s.evidence.flatMap (fun ev =>
          if isBlank ev.value then
            [ValidationFailure.mk (some s.span_id)
              "evidence_must_be_verifiable"
              ("Span \"" ++ s.name ++ "\" has evidence with empty value")]
          else [])) := by
  have hccore : ((g.spans.filter
      (fun s => s.type = SpanType.core)).isEmpty = true) = False := by
    simp only [List.isEmpty_iff, eq_iff_iff, iff_false]
    intro hnil
    rcases hc with ⟨s, hs, ht⟩
    have : s ∈ g.spans.filter (fun s => s.type = SpanType.core) :=
      List.mem_filter.mpr ⟨hs, by simp [ht]⟩
    rw [hnil] at this
    simp at this
  rw [validateExecutionGraph, if_neg (by simp [hccore])]
  rw [List.filter_append, List.filter_append, List.filter_append,
    List.filter_append]
  rw [filter_rule_eq_nil _ _ (fun fl hfl => by
    rcases rule_of_mem_hierarchyFailures g.spans fl hfl with h | h <;>
      simp [h])]
  rw [filter_rule_eq_nil _ _ (fun fl hfl => by
    simp [rule_of_mem_parentRefFailures g.spans fl hfl])]
  rw [filter_rule_eq_nil _ _ (fun fl hfl => by
    simp [rule_of_mem_selfRefFailures g.spans fl hfl])]
  rw [filter_rule_eq_self _ _ (fun fl hfl =>
    rule_of_mem_evidenceFailures g.spans fl hfl)]
  rw [filter_rule_eq_nil _ _ (fun fl hfl => by
    simp [rule_of_mem_artifactFailures g.spans fl hfl])]
  simp only [List.nil_append, List.append_nil]
  rw [evidenceFailures]

/-- C6 counterexample: an Evidence entry with the non-empty value " "
(whitespace only) is flagged evidence_must_be_verifiable, contradicting the
claim that non-empty values are never flagged. -/
theorem validator_whitespace_evidence_counterexample :
    (∃ s ∈ whitespaceEvidenceGraph.spans, ∃ ev ∈ s.evidence,
      ev.value ≠ "") ∧
    ((validateExecutionGraph whitespaceEvidenceGraph).filter
      (fun fl => fl.rule = "evidence_must_be_verifiable")).length = 1 := by
  constructor
  · refine ⟨attachEvidence (createCoreSpan "core" none 0)
      { type := EvidenceType.id, value := " ", description := "proof" },
      ?_, SpanEvidence.mk EvidenceType.id " " "proof", ?_, by decide⟩
    · simp [whitespaceEvidenceGraph]
    · simp
  · decide

/-- C6 witness: the whitespace-evidence graph evaluates to exactly the list
of blank-valued evidence failures. -/
theorem validator_evidence_spec_witness :
    (validateExecutionGraph whitespaceEvidenceGraph).filter
        (fun fl => fl.rule = "evidence_must_be_verifiable") =
      whitespaceEvidenceGraph.spans.flatMap (fun s =>
        s.evidence.flatMap (fun ev =>
          if isBlank ev.value then
            [ValidationFailure.mk (some s.span_id)
              "evidence_must_be_verifiable"
              ("Span \"" ++ s.name ++ "\" has evidence with empty value")]
          else [])) :=
  validator_evidence_spec whitespaceEvidenceGraph
    ⟨attachEvidence (createCoreSpan "core" none 0)
      { type := EvidenceType.id, value := " ", description := "proof" },
      by simp [whitespaceEvidenceGraph], by simp⟩

theorem ite_isEmpty_map (l : List ValidationFailure)
    (f : ValidationFailure → String) :
    (if l.isEmpty then [] else l.map f) = l.map f := by
  cases l <;> simp

/-- C1 (amended): finalize runs the validator over the current collection;
its core-level failure reasons are one entry per validation failure
(formatted [rule] message) plus — when at least one recorded span OTHER THAN
THE CORE SPAN ITSELF (compared by span id; a failed core-typed span ingested
from a collaborator counts) is failed — one summary entry counting those
spans; the core span (the head of the collection in every reachable context)
is transitioned to completed when that list is empty and to failed with
those reasons appended otherwise; and the wrapper returns success equal to
the emptiness of the reason list together with the core span id, the updated
graph, the validation failures, the reasons, and the caller's result
unchanged. -/
theorem finalize_spec {α : Type} (ctx : ExecutionContext) (r : Option α)
    (c : ExecutionSpan) (rest : List ExecutionSpan)
    (hspans : ctx.spans = c :: rest)
    (hid : c.span_id = ctx.coreSpan.span_id) :
    (ctx.finalize r).validation_failures =
      validateExecutionGraph { spans := ctx.spans } ∧
    (ctx.finalize r).failure_reasons =
      (validateExecutionGraph { spans := ctx.spans }).map
        (fun f => "[" ++ f.rule ++ "] " ++ f.message) ++
      (if 0 < (ctx.spans.filter (fun s =>
          s.span_id ≠ ctx.coreSpan.span_id ∧
          s.status = SpanStatus.failed)).length then
        [Nat.repr (ctx.spans.filter (fun s =>
          s.span_id ≠ ctx.coreSpan.span_id ∧
          s.status = SpanStatus.failed)).length ++ " child span(s) failed"]
       else []) ∧
    (ctx.finalize r).success = (ctx.finalize r).failure_reasons.isEmpty ∧
    (ctx.finalize r).core_span_id = ctx.coreSpan.span_id ∧
    (ctx.finalize r).result = r ∧
    (ctx.finalize r).execution_graph.spans =
      (if (ctx.finalize r).success = true then completeSpan c
       else failSpan c (ctx.finalize r).failure_reasons) :: rest := by
  refine ⟨rfl, ?_, rfl, rfl, rfl, ?_⟩
  · simp only [ExecutionContext.finalize]
    rw [ite_isEmpty_map]
  · simp only [ExecutionContext.finalize]
    split_ifs <;> rw [hspans, updateSpanList_cons_of_eq _ _ _ _ hid]

/-- C1 counterexample: a context reached through the public API whose only
failed span is an ingested core-typed one.  The graph validates cleanly and
no non-core span is failed, so the claim predicts success with no reasons;
the code instead counts the ingested failed core-typed span (its id differs
from the context's core span id) and finalize fails. -/
theorem finalize_noncore_counterexample :
    validateExecutionGraph { spans := contextWithIngestedFailedCore.spans } =
      [] ∧
    contextWithIngestedFailedCore.spans.filter (fun s =>
      s.type ≠ SpanType.core ∧ s.status = SpanStatus.failed) = [] ∧
    (contextWithIngestedFailedCore.finalize
      (none : Option Nat)).success = false ∧
    (contextWithIngestedFailedCore.finalize
      (none : Option Nat)).failure_reasons = ["1 child span(s) failed"] := by
  refine ⟨by decide, by decide, by decide, by decide⟩

/-- C1 witness: finalizing a fresh context returns the caller's result
unchanged. -/
theorem finalize_spec_witness :
    ((ExecutionContext.new "ecosystem-core" none).finalize
      (none : Option Nat)).result = none :=
  (finalize_spec (ExecutionContext.new "ecosystem-core" none) none
    (createCoreSpan "ecosystem-core" none 0) [] rfl rfl).2.2.2.2.1

/-- C3 witness: one resolving entry yields a three-span graph. -/
theorem executeMultiRepoWithSpans_spec_witness :
    (executeMultiRepoWithSpans "ecosystem-core" none
      [RepoEntry.mk "marketplace" "marketplace-agent" "list_artifacts"
        (Except.ok (1 : Nat))]
      (fun _ => Except.ok (7 : Nat))).execution_graph.spans.length = 3 :=
  (executeMultiRepoWithSpans_spec "ecosystem-core" none
    [RepoEntry.mk "marketplace" "marketplace-agent" "list_artifacts"
      (Except.ok (1 : Nat))]
    (fun _ => Except.ok (7 : Nat)) (by simp)).1

/-- C8 witness: one resolving entry with a throwing aggregator yields an
absent payload. -/
theorem executeMultiRepoWithSpans_aggregator_error_spec_witness :
    (executeMultiRepoWithSpans "ecosystem-core" none
      [RepoEntry.mk "marketplace" "marketplace-agent" "list_artifacts"
        (Except.ok (1 : Nat))]
      (fun _ => (Except.error "aggregation failed" :
        Except String Nat))).result = none :=
  (executeMultiRepoWithSpans_aggregator_error_spec "ecosystem-core" none
    [RepoEntry.mk "marketplace" "marketplace-agent" "list_artifacts"
      (Except.ok (1 : Nat))]
    (fun _ => (Except.error "aggregation failed" : Except String Nat))
    (by simp) (by simp)
    (by
      intro e he
      rw [List.mem_singleton.mp he]
      exact ⟨1, rfl⟩)
    "aggregation failed" rfl).2.2.2.1

/-- C9 witness: the first entry's repo/agent pair sits at positions 1 and 2
with correctly chained parents. -/
theorem executeMultiRepoWithSpans_span_order_witness :
    ∃ rs as : ExecutionSpan,
      (executeMultiRepoWithSpans "ecosystem-core" none
        [RepoEntry.mk "marketplace" "marketplace-agent" "list_artifacts"
          (Except.ok (1 : Nat))]
        (fun _ => Except.ok (7 : Nat))).execution_graph.spans.get?
          (1 + 2 * 0) = some rs ∧
      (executeMultiRepoWithSpans "ecosystem-core" none
        [RepoEntry.mk "marketplace" "marketplace-agent" "list_artifacts"
          (Except.ok (1 : Nat))]
        (fun _ => Except.ok (7 : Nat))).execution_graph.spans.get?
          (2 + 2 * 0) = some as ∧
      rs.type = SpanType.repo ∧ rs.repo_name = some "marketplace" ∧
      rs.parent_span_id = some 0 ∧
      as.type = SpanType.agent ∧ as.agent_name = some "marketplace-agent" ∧
      as.operation = some "list_artifacts" ∧
      as.parent_span_id = some rs.span_id :=
  (executeMultiRepoWithSpans_span_order "ecosystem-core" none
    [RepoEntry.mk "marketplace" "marketplace-agent" "list_artifacts"
      (Except.ok (1 : Nat))]
    (fun _ => Except.ok (7 : Nat))).2.2.1 0
    (RepoEntry.mk "marketplace" "marketplace-agent" "list_artifacts"
      (Except.ok (1 : Nat))) rfl

end EcosystemCore
